import Mathlib

/-!
Shallow embedding of the content-studio scheduling core of the
`angelamos-operations` backend:

* `aspects/content_studio/shared/repositories/scheduled_post.py`
  (`ScheduledPostRepository`), and
* `aspects/content_studio/shared/services/scheduler_service.py`
  (`SchedulerService`).

Modelling conventions:

* Database rows become Lean structures; SQLAlchemy enum columns become
  inductives.  `datetime` values become `Int` instants; UUIDs become `Nat`
  identifiers; Late API identifiers stay `String`s.
* The async session is a pair of post lists: `posts` is the in-transaction
  working view (what `session.add`/attribute writes/`flush` produce), and
  `committed` is the durable view; `session.commit()` copies `posts` into
  `committed`.  `flush`/`refresh` are identities of the working view.
* Read-only collaborator tables (connected accounts, content library items)
  live in an `Env` record, since the scheduling core never mutates them.
* Each external Late API call is replaced by an outcome argument
  (`Except String α`: `ok` = HTTP success, `error msg` = `LateApiError`)
  and is logged into a `SyncTrace` so that theorems can speak about which
  create/update/delete requests were actually issued.
* Python exceptions become `Except SchedError`: `ValueError` and
  `LateApiError` are the two kinds the scheduler code raises or catches.
* Python truthiness tests on `str | None` columns (`if post.late_post_id:`)
  are modelled by `truthy`, which is false for `none` and for `some ""`.
-/

deriving instance DecidableEq for Except

namespace AngelaMos

/-- `core.enums.ScheduleStatus`. -/
inductive ScheduleStatus
  | draft
  | pending_sync
  | scheduled
  | publishing
  | published
  | failed
  | cancelled
  deriving DecidableEq, Repr

/-- The `.value` string of `core.enums.ScheduleStatus` members. -/
def ScheduleStatus.value : ScheduleStatus → String
  | .draft => "draft"
  | .pending_sync => "pending_sync"
  | .scheduled => "scheduled"
  | .publishing => "publishing"
  | .published => "published"
  | .failed => "failed"
  | .cancelled => "cancelled"

/-- `core.enums.ScheduleMode`. -/
inductive ScheduleMode
  | single_platform
  | multi_platform
  deriving DecidableEq, Repr

/-- `core.enums.LatePostStatus`: the post status reported by the Late API.
The member whose `.value` is the string `partial` is named `partialResult`
here because its Python name is not a legal Lean identifier. -/
inductive LatePostStatus
  | pending
  | processing
  | published
  | failed
  | partialResult
  deriving DecidableEq, Repr

/-- The enum-constructor call `LatePostStatus(s)` of the source: `some`
member for the five recognized value strings, `none` where Python raises
`ValueError` (an unrecognized status). -/
def LatePostStatus.ofString : String → Option LatePostStatus
  | "pending" => some LatePostStatus.pending
  | "processing" => some LatePostStatus.processing
  | "published" => some LatePostStatus.published
  | "failed" => some LatePostStatus.failed
  | "partial" => some LatePostStatus.partialResult
  | _ => none

/-- The `scheduled_posts` row (`models/scheduling.py`, class `ScheduledPost`). -/
structure ScheduledPost where
  id : Nat
  content_library_item_id : Nat
  connected_account_id : Nat
  platform : String
  scheduled_for : Int
  timezone : String
  status : ScheduleStatus
  late_status : Option LatePostStatus
  schedule_mode : ScheduleMode
  batch_id : Option String
  late_post_id : Option String
  platform_post_id : Option String
  platform_post_url : Option String
  published_at : Option Int
  failed_at : Option Int
  error_message : Option String
  retry_count : Nat
  platform_specific_config : Option String
  created_at : Int
  deriving DecidableEq, Repr

/-- The `connected_accounts` row, restricted to the fields the scheduler reads. -/
structure ConnectedAccount where
  id : Nat
  platform : String
  late_account_id : String
  is_active : Bool
  deriving DecidableEq, Repr

/-- A media attachment of a content library item. -/
structure MediaAttachment where
  late_media_url : Option String
  media_type : String
  alt_text : Option String
  deriving DecidableEq, Repr

/-- The `content_library_items` row, restricted to the fields the scheduler reads. -/
structure ContentLibraryItem where
  id : Nat
  title : Option String
  body : Option String
  hashtags : List String
  mentions : List String
  media_attachments : List MediaAttachment
  deriving DecidableEq, Repr

/-- `core.integrations.later_dev.LateMediaItem`. -/
structure LateMediaItem where
  url : Option String
  media_type : String
  alt_text : Option String
  deriving DecidableEq, Repr

/-- `core.integrations.later_dev.LatePlatformTarget`. -/
structure LatePlatformTarget where
  platform : String
  account_id : String
  deriving DecidableEq, Repr

/-- `core.integrations.later_dev.LatePostCreate`: the payload of an external
`create_post` request. -/
structure LatePostCreate where
  content : Option String
  title : Option String
  media_items : List LateMediaItem
  platforms : List LatePlatformTarget
  scheduled_for : Option Int
  timezone : Option String
  publish_now : Bool
  hashtags : List String
  mentions : List String
  deriving DecidableEq, Repr

/-- Per-platform data in a Late API post response. -/
structure LatePlatformData where
  platform_post_id : Option String
  platform_post_url : Option String
  deriving DecidableEq, Repr

/-- `core.integrations.later_dev.LatePost`: a Late API post response. -/
structure LatePost where
  id : String
  status : String
  platforms : List LatePlatformData
  deriving DecidableEq, Repr

/-- The payload of an external `update_post` request
(`LatePostUpdate` plus the target remote post id). -/
structure LateUpdateCall where
  late_post_id : String
  scheduled_for : Int
  timezone : String
  deriving DecidableEq, Repr

/-- The external Late API requests issued during one service call. -/
structure SyncTrace where
  creates : List LatePostCreate
  updates : List LateUpdateCall
  deletes : List String
  deriving DecidableEq, Repr

/-- No external request. -/
def SyncTrace.empty : SyncTrace := ⟨[], [], []⟩

/-- Concatenation of external request logs. -/
def SyncTrace.append (t u : SyncTrace) : SyncTrace :=
  ⟨t.creates ++ u.creates, t.updates ++ u.updates, t.deletes ++ u.deletes⟩

/-- The two exception kinds raised or caught by the scheduler:
Python `ValueError` and `LateApiError`. -/
inductive SchedError
  | valueError (msg : String)
  | lateApiError (msg : String)
  deriving DecidableEq, Repr

/-- Python truthiness of a `str | None` value. -/
def truthy : Option String → Bool
  | none => false
  | some v => v ≠ ""

/-- Read-only collaborator state: connected accounts and content library items. -/
structure Env where
  accounts : List ConnectedAccount
  contents : List ContentLibraryItem
  deriving DecidableEq, Repr

/-- `ConnectedAccountRepository.get_by_id`. -/
def Env.get_account (env : Env) (i : Nat) : Option ConnectedAccount :=
  env.accounts.find? (fun a => a.id == i)

/-- `ContentLibraryRepository.get_by_id_with_media`. -/
def Env.get_content (env : Env) (i : Nat) : Option ContentLibraryItem :=
  env.contents.find? (fun c => c.id == i)

/-- The async DB session: `posts` is the in-transaction working view and
`committed` the durable view. -/
structure SessionState where
  posts : List ScheduledPost
  committed : List ScheduledPost
  deriving DecidableEq, Repr

/-- `session.commit()`. -/
def SessionState.commit (s : SessionState) : SessionState :=
  { s with committed := s.posts }

/-- An attribute write on a fetched ORM row: the working view now holds the
updated row wherever its id appears. -/
def SessionState.put (s : SessionState) (p : ScheduledPost) : SessionState :=
  { s with posts := s.posts.map (fun q => if q.id == p.id then p else q) }

/-- `session.add` of a freshly created row (followed by `flush`). -/
def SessionState.add (s : SessionState) (p : ScheduledPost) : SessionState :=
  { s with posts := s.posts ++ [p] }

/-- A `SELECT ... WHERE id = i` through the session
(`ScheduledPostRepository.get_by_id_with_relations`). -/
def SessionState.get (s : SessionState) (i : Nat) : Option ScheduledPost :=
  s.posts.find? (fun p => p.id == i)

/-- Order used by `get_pending_sync`: `created_at` ascending. -/
def createdLe (a b : ScheduledPost) : Prop :=
  a.created_at ≤ b.created_at

instance : DecidableRel createdLe := fun a b =>
  inferInstanceAs (Decidable (a.created_at ≤ b.created_at))

instance : IsTotal ScheduledPost createdLe :=
  ⟨fun a b => le_total a.created_at b.created_at⟩

instance : IsTrans ScheduledPost createdLe :=
  ⟨fun _ _ _ h1 h2 => le_trans h1 h2⟩

namespace ScheduledPostRepository

/-- `ScheduledPostRepository.create`: the new row starts in `DRAFT`, with the
grouping and timing fields supplied by the caller and all Late API fields
empty.  `nextId` stands for the database-assigned primary key and
`created_at` for the insertion timestamp. -/
def create (nextId : Nat) (content_library_item_id connected_account_id : Nat)
    (platform : String) (scheduled_for : Int) (schedule_mode : ScheduleMode)
    (timezone : String) (batch_id : Option String)
    (platform_specific_config : Option String) (created_at : Int) : ScheduledPost :=
  { id := nextId
    content_library_item_id := content_library_item_id
    connected_account_id := connected_account_id
    platform := platform
    scheduled_for := scheduled_for
    timezone := timezone
    status := ScheduleStatus.draft
    late_status := none
    schedule_mode := schedule_mode
    batch_id := batch_id
    late_post_id := none
    platform_post_id := none
    platform_post_url := none
    published_at := none
    failed_at := none
    error_message := none
    retry_count := 0
    platform_specific_config := platform_specific_config
    created_at := created_at }

/-- `ScheduledPostRepository.update_status`, with `now` standing for
`datetime.now(UTC)`.  Optional arguments that Python defaults to `None` are
passed explicitly as `Option` values; the `if error_message:` truthiness test
of the source is kept (an empty message is not recorded). -/
def update_status (now : Int) (post : ScheduledPost) (status : ScheduleStatus)
    (late_post_id : Option String) (late_status : Option LatePostStatus)
    (platform_post_id : Option String) (platform_post_url : Option String)
    (error_message : Option String) : ScheduledPost :=
  let p := { post with status := status }
  let p := match late_post_id with
    | some v => { p with late_post_id := some v }
    | none => p
  let p := match late_status with
    | some v => { p with late_status := some v }
    | none => p
  let p := match platform_post_id with
    | some v => { p with platform_post_id := some v }
    | none => p
  let p := match platform_post_url with
    | some v => { p with platform_post_url := some v }
    | none => p
  let p := if status = ScheduleStatus.published then
      { p with published_at := some now }
    else p
  if status = ScheduleStatus.failed then
    let q := { p with failed_at := some now, retry_count := p.retry_count + 1 }
    match error_message with
    | some m => if m = "" then q else { q with error_message := some m }
    | none => q
  else p

/-- `ScheduledPostRepository.reschedule`: always writes `scheduled_for`,
writes `timezone` only when the argument is truthy, and demotes a
`SCHEDULED` post to `PENDING_SYNC`. -/
def reschedule (post : ScheduledPost) (scheduled_for : Int)
    (timezone : Option String) : ScheduledPost :=
  let p := { post with scheduled_for := scheduled_for }
  let p := match timezone with
    | some t => if t = "" then p else { p with timezone := t }
    | none => p
  if p.status = ScheduleStatus.scheduled then
    { p with status := ScheduleStatus.pending_sync }
  else p

/-- `ScheduledPostRepository.cancel`. -/
def cancel (post : ScheduledPost) : ScheduledPost :=
  { post with status := ScheduleStatus.cancelled }

/-- `ScheduledPostRepository.get_pending_sync`: all posts whose status is
`PENDING_SYNC`, ordered by `created_at` ascending. -/
def get_pending_sync (posts : List ScheduledPost) : List ScheduledPost :=
  List.insertionSort createdLe
    (posts.filter (fun p => p.status = ScheduleStatus.pending_sync))

end ScheduledPostRepository

/-- One element of `schedule_multi`'s `account_schedules` argument. -/
structure AccountSchedule where
  connected_account_id : Nat
  scheduled_for : Int
  platform_specific_config : Option String
  deriving DecidableEq, Repr

/-- Result of one service call: updated session, the external requests it
issued, and either the raised exception or the returned value. -/
abbrev SResult (α : Type) := SessionState × SyncTrace × Except SchedError α

namespace SchedulerService

/-- `SchedulerService._sync_to_late`: looks up content and account (raising
`ValueError` when either is missing, which the caller does *not* catch),
unconditionally issues an external `create_post` request built from them, and
on success records `late_post_id`/`late_status` and moves the post to
`SCHEDULED`, while on `LateApiError` it moves the post to `FAILED` with the
error message, commits, and re-raises.  `outcome` stands for the Late API's
response to the create request.  On a successful create whose response
status is not a recognized `LatePostStatus` value, the enum constructor in
the `update_status` argument list raises an uncaught `ValueError` before
any local write: the post is left untouched even though the external create
already happened. -/
def sync_to_late (env : Env) (now : Int) (outcome : Except String LatePost)
    (s : SessionState) (post : ScheduledPost) : SResult ScheduledPost :=
  match env.get_content post.content_library_item_id,
        env.get_account post.connected_account_id with
  | some content, some account =>
    let media_items := content.media_attachments.map (fun a =>
      LateMediaItem.mk a.late_media_url a.media_type a.alt_text)
    let platform_target : LatePlatformTarget :=
      ⟨post.platform, account.late_account_id⟩
    let post_create : LatePostCreate :=
      ⟨content.body, content.title, media_items, [platform_target],
       some post.scheduled_for, some post.timezone, false,
       content.hashtags, content.mentions⟩
    let tr : SyncTrace := ⟨[post_create], [], []⟩
    match outcome with
    | Except.ok late_post =>
      match LatePostStatus.ofString late_post.status with
      | some ls =>
        let post := ScheduledPostRepository.update_status now post
          ScheduleStatus.scheduled (some late_post.id) (some ls)
          none none none
        ((s.put post).commit, tr, Except.ok post)
      | none =>
        (s, tr, Except.error (SchedError.valueError
          (late_post.status ++ " is not a valid LatePostStatus")))
    | Except.error e =>
      let post := ScheduledPostRepository.update_status now post
        ScheduleStatus.failed none none none none (some e)
      ((s.put post).commit, tr, Except.error (SchedError.lateApiError e))
  | _, _ =>
    (s, SyncTrace.empty,
      Except.error (SchedError.valueError "Content or account not found"))

/-- `SchedulerService._update_late_schedule`: no-op without a truthy
`late_post_id`; otherwise issues an external `update_post` request with the
post's current time and timezone, and on success moves the post (back) to
`SCHEDULED` and commits; a `LateApiError` propagates without a local write. -/
def update_late_schedule (now : Int) (outcome : Except String Unit)
    (s : SessionState) (post : ScheduledPost) : SResult ScheduledPost :=
  if truthy post.late_post_id then
    let lid := post.late_post_id.getD ""
    let tr : SyncTrace := ⟨[], [⟨lid, post.scheduled_for, post.timezone⟩], []⟩
    match outcome with
    | Except.ok _ =>
      let post := ScheduledPostRepository.update_status now post
        ScheduleStatus.scheduled none none none none none
      ((s.put post).commit, tr, Except.ok post)
    | Except.error e =>
      (s, tr, Except.error (SchedError.lateApiError e))
  else
    (s, SyncTrace.empty, Except.ok post)

/-- `SchedulerService._delete_from_late`: no-op without a truthy
`late_post_id`; otherwise issues an external `delete_post` request and lets a
`LateApiError` propagate (there is no `except` clause, only `finally`). -/
def delete_from_late (outcome : Except String Unit) (post : ScheduledPost) :
    SyncTrace × Except SchedError Unit :=
  if truthy post.late_post_id then
    let lid := post.late_post_id.getD ""
    match outcome with
    | Except.ok _ => (⟨[], [], [lid]⟩, Except.ok ())
    | Except.error e => (⟨[], [], [lid]⟩, Except.error (SchedError.lateApiError e))
  else
    (SyncTrace.empty, Except.ok ())

/-- `SchedulerService._publish_via_late`: looks up content and account
(raising `ValueError` when either is missing), issues an external
`create_post` request with `publish_now=True` (media filtered to truthy
URLs), and on success records the remote identifiers and moves the post to
`PUBLISHED`; a `LateApiError` propagates to `publish_now`.  As in
`_sync_to_late`, a successful create whose response status is not a
recognized `LatePostStatus` raises an uncaught `ValueError` in the
`update_status` argument list, before any local write. -/
def publish_via_late (env : Env) (now : Int) (outcome : Except String LatePost)
    (s : SessionState) (post : ScheduledPost) : SResult ScheduledPost :=
  match env.get_content post.content_library_item_id,
        env.get_account post.connected_account_id with
  | some content, some account =>
    let media_items := (content.media_attachments.filter
        (fun a => truthy a.late_media_url)).map (fun a =>
      LateMediaItem.mk a.late_media_url a.media_type a.alt_text)
    let platform_target : LatePlatformTarget :=
      ⟨post.platform, account.late_account_id⟩
    let post_create : LatePostCreate :=
      ⟨content.body, content.title, media_items, [platform_target],
       none, none, true, content.hashtags, content.mentions⟩
    let tr : SyncTrace := ⟨[post_create], [], []⟩
    match outcome with
    | Except.ok late_post =>
      let platform_data := late_post.platforms.head?
      match LatePostStatus.ofString late_post.status with
      | some ls =>
        let post := ScheduledPostRepository.update_status now post
          ScheduleStatus.published (some late_post.id) (some ls)
          (match platform_data with
            | some d => d.platform_post_id | none => none)
          (match platform_data with
            | some d => d.platform_post_url | none => none)
          none
        ((s.put post).commit, tr, Except.ok post)
      | none =>
        (s, tr, Except.error (SchedError.valueError
          (late_post.status ++ " is not a valid LatePostStatus")))
    | Except.error e =>
      (s, tr, Except.error (SchedError.lateApiError e))
  | _, _ =>
    (s, SyncTrace.empty,
      Except.error (SchedError.valueError "Content or account not found"))

/-- `SchedulerService.schedule_single`: validates account (exists, active)
and content, creates the row, sets its status (`PENDING_SYNC` when
`sync_immediately` else `DRAFT`), commits, and when `sync_immediately` runs
`_sync_to_late` (whose errors propagate). -/
def schedule_single (env : Env) (now : Int) (nextId : Nat)
    (syncOutcome : Except String LatePost) (s : SessionState)
    (content_library_item_id connected_account_id : Nat) (scheduled_for : Int)
    (timezone : String) (platform_specific_config : Option String)
    (sync_immediately : Bool) : SResult ScheduledPost :=
  match env.get_account connected_account_id with
  | none =>
    (s, SyncTrace.empty, Except.error (SchedError.valueError
      ("Account " ++ toString connected_account_id ++ " not found")))
  | some account =>
    if ¬ account.is_active then
      (s, SyncTrace.empty, Except.error (SchedError.valueError
        ("Account " ++ toString connected_account_id ++ " is not active")))
    else
      match env.get_content content_library_item_id with
      | none =>
        (s, SyncTrace.empty, Except.error (SchedError.valueError
          ("Content " ++ toString content_library_item_id ++ " not found")))
      | some _ =>
        let status := if sync_immediately then ScheduleStatus.pending_sync
          else ScheduleStatus.draft
        let post := ScheduledPostRepository.create nextId
          content_library_item_id connected_account_id account.platform
          scheduled_for ScheduleMode.single_platform timezone none
          platform_specific_config now
        let s := s.add post
        let post := ScheduledPostRepository.update_status now post status
          none none none none none
        let s := (s.put post).commit
        if sync_immediately then
          sync_to_late env now syncOutcome s post
        else
          (s, SyncTrace.empty, Except.ok post)

/-- The creation loop of `SchedulerService.schedule_multi`: for each entry,
validates the account (exists, active) raising `ValueError` on failure —
which aborts the loop before `schedule_multi`'s commit — and otherwise
creates a row carrying the shared `batch_id` and sets its status.  Returns
the updated working session, the next fresh id, and the created posts. -/
def schedule_multi_create (env : Env) (now : Int)
    (content_library_item_id : Nat) (batch_id : String) (timezone : String)
    (sync_immediately : Bool) :
    List AccountSchedule → SessionState → Nat → List ScheduledPost →
    SessionState × Nat × Except SchedError (List ScheduledPost)
  | [], s, nid, acc => (s, nid, Except.ok acc)
  | sched :: rest, s, nid, acc =>
    match env.get_account sched.connected_account_id with
    | none =>
      (s, nid, Except.error (SchedError.valueError
        ("Account " ++ toString sched.connected_account_id ++ " not found")))
    | some account =>
      if ¬ account.is_active then
        (s, nid, Except.error (SchedError.valueError
          ("Account " ++ account.platform ++ " is not active")))
      else
        let status := if sync_immediately then ScheduleStatus.pending_sync
          else ScheduleStatus.draft
        let post := ScheduledPostRepository.create nid
          content_library_item_id sched.connected_account_id account.platform
          sched.scheduled_for ScheduleMode.multi_platform timezone
          (some batch_id) sched.platform_specific_config now
        let s := s.add post
        let post := ScheduledPostRepository.update_status now post status
          none none none none none
        let s := s.put post
        schedule_multi_create env now content_library_item_id batch_id
          timezone sync_immediately rest s (nid + 1) (acc ++ [post])

/-- The sync loop of `SchedulerService.schedule_multi`: runs `_sync_to_late`
on each created post in order; the returned list carries the posts as the
loop left them (in Python the list elements are mutated in place).  An error
aborts the loop and propagates (there is no `try` around these calls). -/
def schedule_multi_sync (env : Env) (now : Int)
    (oracle : Nat → Except String LatePost) :
    List ScheduledPost → SessionState → SyncTrace → List ScheduledPost →
    SessionState × SyncTrace × List ScheduledPost × Except SchedError Unit
  | [], s, tr, done => (s, tr, done, Except.ok ())
  | p :: rest, s, tr, done =>
    match sync_to_late env now (oracle p.id) s p with
    | (s2, tr2, Except.ok p2) =>
      schedule_multi_sync env now oracle rest s2 (tr.append tr2) (done ++ [p2])
    | (s2, tr2, Except.error e) =>
      (s2, tr.append tr2, done ++ [p], Except.error e)

/-- `SchedulerService.schedule_multi`: validates the content, generates one
fresh `batch_id` (passed in as the value of `str(uuid4())`), runs the
creation loop, commits once *after* the whole loop, and when
`sync_immediately` pushes each created post.  Returns the batch id and the
created posts. -/
def schedule_multi (env : Env) (now : Int) (nextId : Nat) (batch_id : String)
    (oracle : Nat → Except String LatePost) (s : SessionState)
    (content_library_item_id : Nat) (account_schedules : List AccountSchedule)
    (timezone : String) (sync_immediately : Bool) :
    SResult (String × List ScheduledPost) :=
  match env.get_content content_library_item_id with
  | none =>
    (s, SyncTrace.empty, Except.error (SchedError.valueError
      ("Content " ++ toString content_library_item_id ++ " not found")))
  | some _ =>
    match schedule_multi_create env now content_library_item_id batch_id
        timezone sync_immediately account_schedules s nextId [] with
    | (s1, _, Except.error e) => (s1, SyncTrace.empty, Except.error e)
    | (s1, _, Except.ok posts) =>
      let s2 := s1.commit
      if sync_immediately then
        match schedule_multi_sync env now oracle posts s2 SyncTrace.empty [] with
        | (s3, tr, donePosts, Except.ok _) =>
          (s3, tr, Except.ok (batch_id, donePosts))
        | (s3, tr, _, Except.error e) => (s3, tr, Except.error e)
      else
        (s2, SyncTrace.empty, Except.ok (batch_id, posts))

/-- `SchedulerService.reschedule`: 404-style `ValueError` when the post is
missing, conflict `ValueError` when it is `PUBLISHED` or `CANCELLED`,
otherwise the repository reschedule followed by commit, and — when the post
carries a truthy `late_post_id` — `_update_late_schedule`. -/
def reschedule (now : Int) (updateOutcome : Except String Unit)
    (s : SessionState) (post_id : Nat) (scheduled_for : Int)
    (timezone : Option String) : SResult ScheduledPost :=
  match s.get post_id with
  | none =>
    (s, SyncTrace.empty, Except.error (SchedError.valueError
      ("Post " ++ toString post_id ++ " not found")))
  | some post =>
    if post.status = ScheduleStatus.published ∨
        post.status = ScheduleStatus.cancelled then
      (s, SyncTrace.empty, Except.error (SchedError.valueError
        ("Cannot reschedule post with status " ++ post.status.value)))
    else
      let post := ScheduledPostRepository.reschedule post scheduled_for timezone
      let s := (s.put post).commit
      if truthy post.late_post_id then
        update_late_schedule now updateOutcome s post
      else
        (s, SyncTrace.empty, Except.ok post)

/-- `SchedulerService.cancel`: `ValueError` when the post is missing or
`PUBLISHED`; when the post carries a truthy `late_post_id` the external
delete runs first and its `LateApiError` propagates — only after a
successful (or skipped) remote delete is the local row set to `CANCELLED`
and committed. -/
def cancel (deleteOutcome : Except String Unit) (s : SessionState)
    (post_id : Nat) : SResult ScheduledPost :=
  match s.get post_id with
  | none =>
    (s, SyncTrace.empty, Except.error (SchedError.valueError
      ("Post " ++ toString post_id ++ " not found")))
  | some post =>
    if post.status = ScheduleStatus.published then
      (s, SyncTrace.empty, Except.error (SchedError.valueError
        "Cannot cancel already published post"))
    else
      match (if truthy post.late_post_id then
          delete_from_late deleteOutcome post
        else (SyncTrace.empty, Except.ok ())) with
      | (tr, Except.error e) => (s, tr, Except.error e)
      | (tr, Except.ok _) =>
        let post := ScheduledPostRepository.cancel post
        ((s.put post).commit, tr, Except.ok post)

/-- `SchedulerService.publish_now`: `ValueError` when the post is missing or
already `PUBLISHED` (this is the *only* status check — a `CANCELLED` post is
not rejected); moves the post to `PUBLISHING`, commits, then runs
`_publish_via_late`; a `LateApiError` there moves the post to `FAILED` with
the message, commits, and re-raises, while a `ValueError` there propagates
with the post left in `PUBLISHING`. -/
def publish_now (env : Env) (now : Int) (outcome : Except String LatePost)
    (s : SessionState) (post_id : Nat) : SResult ScheduledPost :=
  match s.get post_id with
  | none =>
    (s, SyncTrace.empty, Except.error (SchedError.valueError
      ("Post " ++ toString post_id ++ " not found")))
  | some post =>
    if post.status = ScheduleStatus.published then
      (s, SyncTrace.empty, Except.error (SchedError.valueError
        "Post already published"))
    else
      let post := ScheduledPostRepository.update_status now post
        ScheduleStatus.publishing none none none none none
      let s := (s.put post).commit
      match publish_via_late env now outcome s post with
      | (s2, tr, Except.ok post2) => (s2, tr, Except.ok post2)
      | (s2, tr, Except.error (SchedError.lateApiError e)) =>
        let post3 := ScheduledPostRepository.update_status now post
          ScheduleStatus.failed none none none none (some e)
        ((s2.put post3).commit, tr, Except.error (SchedError.lateApiError e))
      | (s2, tr, Except.error err) => (s2, tr, Except.error err)

/-- The loop of `SchedulerService.sync_pending`: pushes each selected post,
counting successes and `LateApiError` failures (which are caught per post);
any other exception — in particular the `ValueError` `_sync_to_late` raises
for missing content or account — aborts the loop and propagates. -/
def sync_pending_loop (env : Env) (now : Int)
    (oracle : Nat → Except String LatePost) :
    List ScheduledPost → SessionState → SyncTrace → Nat → Nat →
    SessionState × SyncTrace × Except SchedError (Nat × Nat)
  | [], s, tr, synced, failed => (s, tr, Except.ok (synced, failed))
  | p :: rest, s, tr, synced, failed =>
    match sync_to_late env now (oracle p.id) s p with
    | (s2, tr2, Except.ok _) =>
      sync_pending_loop env now oracle rest s2 (tr.append tr2) (synced + 1) failed
    | (s2, tr2, Except.error (SchedError.lateApiError _)) =>
      sync_pending_loop env now oracle rest s2 (tr.append tr2) synced (failed + 1)
    | (s2, tr2, Except.error e) => (s2, tr.append tr2, Except.error e)

/-- `SchedulerService.sync_pending`: selects the `PENDING_SYNC` posts oldest
first and runs the per-post loop, returning the aggregate
`(synced, failed)` counts. -/
def sync_pending (env : Env) (now : Int)
    (oracle : Nat → Except String LatePost) (s : SessionState) :
    SessionState × SyncTrace × Except SchedError (Nat × Nat) :=
  sync_pending_loop env now oracle
    (ScheduledPostRepository.get_pending_sync s.posts) s SyncTrace.empty 0 0

end SchedulerService

/-! ## Concrete fixtures -/

/-- A freshly created single-platform post (id 1, content 10, account 20). -/
def basePost : ScheduledPost :=
  { id := 1
    content_library_item_id := 10
    connected_account_id := 20
    platform := "instagram"
    scheduled_for := 100
    timezone := "UTC"
    status := ScheduleStatus.draft
    late_status := none
    schedule_mode := ScheduleMode.single_platform
    batch_id := none
    late_post_id := none
    platform_post_id := none
    platform_post_url := none
    published_at := none
    failed_at := none
    error_message := none
    retry_count := 0
    platform_specific_config := none
    created_at := 50 }

/-- An active connected account with id 20. -/
def baseAccount : ConnectedAccount := ⟨20, "instagram", "late-acc-20", true⟩

/-- A content library item with id 10. -/
def baseContent : ContentLibraryItem :=
  ⟨10, some "Title", some "Body", ["tag"], [], []⟩

/-- Environment holding `baseAccount` and `baseContent`. -/
def baseEnv : Env := ⟨[baseAccount], [baseContent]⟩

/-- A session with no posts. -/
def emptySession : SessionState := ⟨[], []⟩

/-- Status of the post a service call returned, when it succeeded. -/
def exceptStatus : Except SchedError ScheduledPost → Option ScheduleStatus
  | Except.ok q => some q.status
  | Except.error _ => none

/-- The posts a `schedule_multi` call returned, when it succeeded. -/
def exceptPosts :
    Except SchedError (String × List ScheduledPost) → List ScheduledPost
  | Except.ok x => x.2
  | Except.error _ => []

/-- A create outcome whose success (if any) carries a status string the
`LatePostStatus` enum recognizes — the condition under which the source's
`LatePostStatus(late_post.status)` conversion does not raise. -/
def okStatusRecognized : Except String LatePost → Bool
  | Except.ok lp => (LatePostStatus.ofString lp.status).isSome
  | Except.error _ => true

/-- The grouping fields of a post: batch token, schedule mode, content and
account references.  No operation of the scheduler changes them after
creation. -/
def groupKey (p : ScheduledPost) : Option String × ScheduleMode × Nat × Nat :=
  (p.batch_id, p.schedule_mode, p.content_library_item_id, p.connected_account_id)

/-- `basePost` after a successful sync: `SCHEDULED` with remote id `ext-1`. -/
def syncedPost : ScheduledPost :=
  { basePost with
    status := ScheduleStatus.scheduled
    late_status := some LatePostStatus.pending
    late_post_id := some "ext-1" }

/-- A session holding exactly `syncedPost`, committed. -/
def syncedSession : SessionState := ⟨[syncedPost], [syncedPost]⟩

/-- A cancelled post. -/
def cancelledPost : ScheduledPost :=
  { basePost with status := ScheduleStatus.cancelled }

/-- A session holding exactly `cancelledPost`, committed. -/
def cancelledSession : SessionState := ⟨[cancelledPost], [cancelledPost]⟩

/-- A post whose push failed once. -/
def failedPost : ScheduledPost :=
  { basePost with
    status := ScheduleStatus.failed
    retry_count := 1
    error_message := some "sync failed"
    failed_at := some 400 }

/-- A session holding exactly `failedPost`, committed. -/
def failedSession : SessionState := ⟨[failedPost], [failedPost]⟩

/-- A successful Late API post response. -/
def latePostOk : LatePost :=
  ⟨"late-1", "published", [⟨some "pp-1", some "https-url"⟩]⟩

/-- A `PENDING_SYNC` post (the older of the two) whose connected account id
99 does not exist in `baseEnv`. -/
def orphanPendingPost : ScheduledPost :=
  { basePost with
    connected_account_id := 99
    status := ScheduleStatus.pending_sync
    created_at := 10 }

/-- A younger `PENDING_SYNC` post with a valid account. -/
def youngPendingPost : ScheduledPost :=
  { basePost with
    id := 2
    status := ScheduleStatus.pending_sync
    created_at := 20 }

/-- A session holding the two `PENDING_SYNC` posts, committed. -/
def sweepSession : SessionState :=
  ⟨[orphanPendingPost, youngPendingPost], [orphanPendingPost, youngPendingPost]⟩

/-- An old `PENDING_SYNC` post with a valid account. -/
def oldPendingPost : ScheduledPost :=
  { basePost with
    status := ScheduleStatus.pending_sync
    created_at := 10 }

/-- A session holding two valid `PENDING_SYNC` posts. -/
def sweepOkSession : SessionState :=
  ⟨[oldPendingPost, youngPendingPost], []⟩

/-! ## Counterexamples -/

/-- Claim C1, counterexample: the claim that no publish-now request changes
the status of a `CANCELLED` post is false — `publish_now` checks only for
`PUBLISHED`, so on `cancelledPost` it proceeds and, with a successful
external call, leaves the stored status `PUBLISHED` (with the working view
committed), not `CANCELLED`. -/
theorem publish_now_moves_cancelled_to_published :
    ((SchedulerService.publish_now baseEnv 500 (Except.ok latePostOk)
        cancelledSession 1).1.get 1).map ScheduledPost.status
      = some ScheduleStatus.published ∧
    ((SchedulerService.publish_now baseEnv 500 (Except.ok latePostOk)
        cancelledSession 1).1.get 1).map ScheduledPost.status
      ≠ some ScheduleStatus.cancelled ∧
    (SchedulerService.publish_now baseEnv 500 (Except.ok latePostOk)
        cancelledSession 1).1.committed
      = (SchedulerService.publish_now baseEnv 500 (Except.ok latePostOk)
        cancelledSession 1).1.posts := by
  decide

/-- Claim C2, counterexample: the claim that a second push is rejected or
short-circuited without an external create request is false — on a post
whose `late_post_id` is already `ext-1`, `_sync_to_late` issues one more
external `create_post` request; when it succeeds with the recognized
status `pending`, the call completes and overwrites `late_post_id` with
the new remote id `ext-2`. -/
theorem second_push_issues_external_create :
    (SchedulerService.sync_to_late baseEnv 500
        (Except.ok ⟨"ext-2", "pending", []⟩) syncedSession
        syncedPost).2.1.creates.length = 1 ∧
    (SchedulerService.sync_to_late baseEnv 500
        (Except.ok ⟨"ext-2", "pending", []⟩) syncedSession
        syncedPost).2.2.toOption.map ScheduledPost.late_post_id
      = some (some "ext-2") := by
  decide

/-- Claim C3, counterexample: the claim that a failing remote delete still
leaves the local status `CANCELLED` with the error only logged is false —
`_delete_from_late` has no `except` clause, so the `LateApiError` propagates
out of `cancel` and the stored status stays `SCHEDULED`. -/
theorem cancel_remote_failure_raises_and_keeps_status :
    (SchedulerService.cancel (Except.error "remote delete failed")
        syncedSession 1).2.2
      = Except.error (SchedError.lateApiError "remote delete failed") ∧
    ((SchedulerService.cancel (Except.error "remote delete failed")
        syncedSession 1).1.get 1).map ScheduledPost.status
      = some ScheduleStatus.scheduled := by
  decide

/-- Claim C4, counterexample: the claim that rescheduling a `SCHEDULED` post
with a remote id leaves it in `PENDING_SYNC` is false — after the external
`update_post` succeeds, `_update_late_schedule` sets the status back to
`SCHEDULED`, so the returned and stored status is `SCHEDULED`. -/
theorem reschedule_synced_post_ends_scheduled :
    (SchedulerService.reschedule 500 (Except.ok ()) syncedSession 1 900
        none).2.1.updates.length = 1 ∧
    exceptStatus (SchedulerService.reschedule 500 (Except.ok ())
        syncedSession 1 900 none).2.2 = some ScheduleStatus.scheduled ∧
    ((SchedulerService.reschedule 500 (Except.ok ()) syncedSession 1 900
        none).1.get 1).map ScheduledPost.status
      = some ScheduleStatus.scheduled ∧
    some ScheduleStatus.scheduled ≠ some ScheduleStatus.pending_sync := by
  decide

/-- Claim C5, counterexample: the claim that posts created for earlier
accounts remain persisted when a later account fails validation is false —
`schedule_multi` commits only after the whole creation loop, so when the
second account is inactive the call raises with the first post created in
the working session but nothing committed. -/
theorem schedule_multi_partial_batch_not_committed :
    (SchedulerService.schedule_multi
        ⟨[baseAccount, ⟨21, "tiktok", "late-acc-21", false⟩], [baseContent]⟩
        500 100 "batch-1" (fun _ => Except.error "unused") emptySession 10
        [⟨20, 600, none⟩, ⟨21, 700, none⟩] "UTC" true).2.2
      = Except.error (SchedError.valueError "Account tiktok is not active") ∧
    (SchedulerService.schedule_multi
        ⟨[baseAccount, ⟨21, "tiktok", "late-acc-21", false⟩], [baseContent]⟩
        500 100 "batch-1" (fun _ => Except.error "unused") emptySession 10
        [⟨20, 600, none⟩, ⟨21, 700, none⟩] "UTC" true).1.committed = [] ∧
    (SchedulerService.schedule_multi
        ⟨[baseAccount, ⟨21, "tiktok", "late-acc-21", false⟩], [baseContent]⟩
        500 100 "batch-1" (fun _ => Except.error "unused") emptySession 10
        [⟨20, 600, none⟩, ⟨21, 700, none⟩] "UTC" true).1.posts.length = 1 := by
  decide

/-- Claim C7, counterexample: the claim that a failure pushing one post does
not abort the sweep is false for the `ValueError` that `_sync_to_late`
raises when the post's account is missing — only `LateApiError` is caught,
so the sweep aborts before even issuing an external request, returns no
counts, and leaves the younger post unprocessed in `PENDING_SYNC`. -/
theorem sweep_aborts_on_missing_account :
    (SchedulerService.sync_pending baseEnv 500
        (fun _ => Except.ok ⟨"L", "pending", []⟩) sweepSession).2.2
      = Except.error (SchedError.valueError "Content or account not found") ∧
    (SchedulerService.sync_pending baseEnv 500
        (fun _ => Except.ok ⟨"L", "pending", []⟩) sweepSession).2.1.creates
      = [] ∧
    ((SchedulerService.sync_pending baseEnv 500
        (fun _ => Except.ok ⟨"L", "pending", []⟩) sweepSession).1.get 2).map
      ScheduledPost.status = some ScheduleStatus.pending_sync := by
  decide

/-- Claim C8, counterexample: the claim that an explicit re-schedule returns
a `FAILED` post to `PENDING_SYNC` is false — the repository demotes only
`SCHEDULED` posts, so rescheduling `failedPost` (which has no remote id)
succeeds but leaves the status `FAILED`. -/
theorem reschedule_failed_post_stays_failed :
    exceptStatus (SchedulerService.reschedule 500 (Except.ok ())
        failedSession 1 900 none).2.2 = some ScheduleStatus.failed ∧
    ((SchedulerService.reschedule 500 (Except.ok ()) failedSession 1 900
        none).1.get 1).map ScheduledPost.status
      = some ScheduleStatus.failed ∧
    some ScheduleStatus.failed ≠ some ScheduleStatus.pending_sync := by
  decide

/-- Claim C9, counterexample: the claim that posts sharing a `batch_id` have
pairwise-distinct `account_id`s is false — `schedule_multi` never checks the
supplied list for duplicates, so scheduling the same account twice creates
two distinct posts with the same `batch_id` and the same `account_id`. -/
theorem schedule_multi_accepts_duplicate_accounts :
    (exceptPosts (SchedulerService.schedule_multi baseEnv 500 100 "batch-1"
        (fun _ => Except.error "unused") emptySession 10
        [⟨20, 600, none⟩, ⟨20, 700, none⟩] "UTC" false).2.2).map
      (fun p => p.connected_account_id) = [20, 20] ∧
    (exceptPosts (SchedulerService.schedule_multi baseEnv 500 100 "batch-1"
        (fun _ => Except.error "unused") emptySession 10
        [⟨20, 600, none⟩, ⟨20, 700, none⟩] "UTC" false).2.2).map
      (fun p => p.batch_id) = [some "batch-1", some "batch-1"] ∧
    (exceptPosts (SchedulerService.schedule_multi baseEnv 500 100 "batch-1"
        (fun _ => Except.error "unused") emptySession 10
        [⟨20, 600, none⟩, ⟨20, 700, none⟩] "UTC" false).2.2).map
      (fun p => p.id) = [100, 101] := by
  decide

/-! ## Repository-level lemmas -/

/-- Closed form of `ScheduledPostRepository.reschedule`. -/
theorem reschedule_spec (p : ScheduledPost) (t : Int) (tz : Option String) :
    ScheduledPostRepository.reschedule p t tz
      = { p with
          scheduled_for := t
          timezone := match tz with
            | some z => if z = "" then p.timezone else z
            | none => p.timezone
          status := if p.status = ScheduleStatus.scheduled then
              ScheduleStatus.pending_sync
            else p.status } := by
  unfold ScheduledPostRepository.reschedule
  cases tz with
  | none =>
    by_cases h : p.status = ScheduleStatus.scheduled <;> simp [h]
  | some z =>
    by_cases hz : z = "" <;>
      by_cases h : p.status = ScheduleStatus.scheduled <;> simp [hz, h]

/-- `update_status` always sets the requested status. -/
theorem update_status_status (now : Int) (post : ScheduledPost)
    (st : ScheduleStatus) (lpi : Option String)
    (ls : Option LatePostStatus) (ppi ppu em : Option String) :
    (ScheduledPostRepository.update_status now post st lpi ls ppi ppu em).status
      = st := by
  unfold ScheduledPostRepository.update_status
  cases lpi <;> cases ls <;> cases ppi <;> cases ppu <;> cases em <;>
    dsimp only <;> split_ifs <;> rfl

/-- `update_status` never touches the identity, grouping, or timing fields. -/
theorem update_status_frame (now : Int) (post : ScheduledPost)
    (st : ScheduleStatus) (lpi : Option String)
    (ls : Option LatePostStatus) (ppi ppu em : Option String) :
    (ScheduledPostRepository.update_status now post st lpi ls ppi ppu em).id
        = post.id ∧
    (ScheduledPostRepository.update_status now post st lpi ls ppi ppu
        em).content_library_item_id = post.content_library_item_id ∧
    (ScheduledPostRepository.update_status now post st lpi ls ppi ppu
        em).connected_account_id = post.connected_account_id ∧
    (ScheduledPostRepository.update_status now post st lpi ls ppi ppu
        em).platform = post.platform ∧
    (ScheduledPostRepository.update_status now post st lpi ls ppi ppu
        em).scheduled_for = post.scheduled_for ∧
    (ScheduledPostRepository.update_status now post st lpi ls ppi ppu
        em).timezone = post.timezone ∧
    (ScheduledPostRepository.update_status now post st lpi ls ppi ppu
        em).schedule_mode = post.schedule_mode ∧
    (ScheduledPostRepository.update_status now post st lpi ls ppi ppu
        em).batch_id = post.batch_id ∧
    (ScheduledPostRepository.update_status now post st lpi ls ppi ppu
        em).platform_specific_config = post.platform_specific_config ∧
    (ScheduledPostRepository.update_status now post st lpi ls ppi ppu
        em).created_at = post.created_at := by
  unfold ScheduledPostRepository.update_status
  cases lpi <;> cases ls <;> cases ppi <;> cases ppu <;> cases em <;>
    dsimp only <;> split_ifs <;> simp

/-- `update_status` with an explicit `late_post_id` records it. -/
theorem update_status_late_id_some (now : Int) (post : ScheduledPost)
    (st : ScheduleStatus) (v : String) (ls : Option LatePostStatus)
    (ppi ppu em : Option String) :
    (ScheduledPostRepository.update_status now post st (some v) ls ppi ppu
        em).late_post_id = some v := by
  unfold ScheduledPostRepository.update_status
  cases ls <;> cases ppi <;> cases ppu <;> cases em <;>
    dsimp only <;> split_ifs <;> rfl

/-- `update_status` without a `late_post_id` argument keeps the old one. -/
theorem update_status_late_id_none (now : Int) (post : ScheduledPost)
    (st : ScheduleStatus) (ls : Option LatePostStatus)
    (ppi ppu em : Option String) :
    (ScheduledPostRepository.update_status now post st none ls ppi ppu
        em).late_post_id = post.late_post_id := by
  unfold ScheduledPostRepository.update_status
  cases ls <;> cases ppi <;> cases ppu <;> cases em <;>
    dsimp only <;> split_ifs <;> rfl

/-- Closed form of the `FAILED` transition with a non-empty message: it
stamps `failed_at`, increments `retry_count` by exactly one, and records the
message. -/
theorem update_status_failed_msg (now : Int) (post : ScheduledPost)
    (m : String) (hm : ¬ m = "") :
    ScheduledPostRepository.update_status now post ScheduleStatus.failed
        none none none none (some m)
      = { post with
          status := ScheduleStatus.failed
          failed_at := some now
          retry_count := post.retry_count + 1
          error_message := some m } := by
  unfold ScheduledPostRepository.update_status
  simp [hm]

/-! ## Session lemmas -/

/-- Writing a row with the fetched row's id makes the session return the new
row for that id. -/
theorem find?_map_put (l : List ScheduledPost) (pid : Nat)
    (p q : ScheduledPost) (h : l.find? (fun x => x.id == pid) = some p)
    (hid : q.id = p.id) :
    (l.map (fun x => if x.id == q.id then q else x)).find?
        (fun x => x.id == pid) = some q := by
  have hpid : p.id = pid := by
    have hp := List.find?_some h
    simpa using hp
  induction l with
  | nil => simp at h
  | cons a t ih =>
    rw [List.map_cons]
    by_cases ha : a.id = pid
    · have haq : (a.id == q.id) = true := by
        simp [ha, hid, hpid]
      rw [if_pos haq]
      have hq : (q.id == pid) = true := by simp [hid, hpid]
      exact List.find?_cons_of_pos _ hq
    · have haq : (a.id == q.id) = false := by
        simp only [beq_eq_false_iff_ne, ne_eq, hid, hpid]
        exact ha
      rw [if_neg (by simp [haq])]
      have hfa : ((fun x => x.id == pid) a) = false := by simpa using ha
      rw [List.find?_cons_of_neg _ (by simp [hfa])] at h
      rw [List.find?_cons_of_neg _ (by simp [hfa])]
      exact ih h

/-- Session version of `find?_map_put`. -/
theorem get_put_eq (s : SessionState) (pid : Nat) (p q : ScheduledPost)
    (hget : s.get pid = some p) (hid : q.id = p.id) :
    (s.put q).get pid = some q :=
  find?_map_put s.posts pid p q hget hid

/-- `commit` leaves the working view in place and copies it to the durable
view. -/
theorem commit_spec (s : SessionState) :
    s.commit.posts = s.posts ∧ s.commit.committed = s.posts :=
  ⟨rfl, rfl⟩

/-- `put` and `commit` do not change which ids the working view answers for;
in particular `get` after `put`/`commit` of an updated row with the same id
still succeeds. -/
theorem get_put_commit_eq (s : SessionState) (pid : Nat)
    (p q : ScheduledPost) (hget : s.get pid = some p) (hid : q.id = p.id) :
    ((s.put q).commit).get pid = some q :=
  get_put_eq s pid p q hget hid

/-! ## Claim theorems -/

/-- Claim C10 (confirmed): for every post in a non-terminal state, the
repository reschedule modifies only `scheduled_for`, `timezone` (and
timezone only when a new one is supplied), and `status` (and status only
via the demotion `SCHEDULED → PENDING_SYNC`); every other field is
unchanged. -/
theorem reschedule_frame_only (p : ScheduledPost) (t : Int)
    (tz : Option String)
    (hp : p.status ≠ ScheduleStatus.published ∧
          p.status ≠ ScheduleStatus.cancelled) :
    (ScheduledPostRepository.reschedule p t tz).scheduled_for = t ∧
    ((ScheduledPostRepository.reschedule p t tz).timezone = p.timezone ∨
      ∃ z, tz = some z ∧
        (ScheduledPostRepository.reschedule p t tz).timezone = z) ∧
    ((ScheduledPostRepository.reschedule p t tz).status = p.status ∨
      (p.status = ScheduleStatus.scheduled ∧
        (ScheduledPostRepository.reschedule p t tz).status
          = ScheduleStatus.pending_sync)) ∧
    (ScheduledPostRepository.reschedule p t tz).late_post_id
      = p.late_post_id ∧
    (ScheduledPostRepository.reschedule p t tz).batch_id = p.batch_id ∧
    (ScheduledPostRepository.reschedule p t tz).retry_count
      = p.retry_count ∧
    (ScheduledPostRepository.reschedule p t tz).error_message
      = p.error_message ∧
    (ScheduledPostRepository.reschedule p t tz).failed_at = p.failed_at ∧
    (ScheduledPostRepository.reschedule p t tz).published_at
      = p.published_at ∧
    (ScheduledPostRepository.reschedule p t tz).platform = p.platform ∧
    (ScheduledPostRepository.reschedule p t tz).schedule_mode
      = p.schedule_mode ∧
    (ScheduledPostRepository.reschedule p t tz).platform_specific_config
      = p.platform_specific_config ∧
    (ScheduledPostRepository.reschedule p t tz).id = p.id ∧
    (ScheduledPostRepository.reschedule p t tz).content_library_item_id
      = p.content_library_item_id ∧
    (ScheduledPostRepository.reschedule p t tz).connected_account_id
      = p.connected_account_id ∧
    (ScheduledPostRepository.reschedule p t tz).late_status
      = p.late_status ∧
    (ScheduledPostRepository.reschedule p t tz).platform_post_id
      = p.platform_post_id ∧
    (ScheduledPostRepository.reschedule p t tz).platform_post_url
      = p.platform_post_url ∧
    (ScheduledPostRepository.reschedule p t tz).created_at
      = p.created_at := by
  rw [reschedule_spec]
  refine ⟨rfl, ?_, ?_, rfl, rfl, rfl, rfl, rfl, rfl, rfl, rfl, rfl, rfl,
    rfl, rfl, rfl, rfl, rfl, rfl⟩
  · cases tz with
    | none => exact Or.inl rfl
    | some z =>
      by_cases hz : z = ""
      · exact Or.inl (by simp [hz])
      · exact Or.inr ⟨z, rfl, by simp [hz]⟩
  · by_cases hsch : p.status = ScheduleStatus.scheduled
    · exact Or.inr ⟨hsch, by simp [hsch]⟩
    · exact Or.inl (by simp [hsch])

/-- Witness for C10 at `basePost` (status `DRAFT`), new time 200, timezone
`EST`. -/
theorem reschedule_frame_only_witness :
    (ScheduledPostRepository.reschedule basePost 200
        (some "EST")).scheduled_for = 200 ∧
    ((ScheduledPostRepository.reschedule basePost 200
        (some "EST")).timezone = basePost.timezone ∨
      ∃ z, some "EST" = some z ∧
        (ScheduledPostRepository.reschedule basePost 200
          (some "EST")).timezone = z) ∧
    ((ScheduledPostRepository.reschedule basePost 200
        (some "EST")).status = basePost.status ∨
      (basePost.status = ScheduleStatus.scheduled ∧
        (ScheduledPostRepository.reschedule basePost 200
          (some "EST")).status = ScheduleStatus.pending_sync)) ∧
    (ScheduledPostRepository.reschedule basePost 200
        (some "EST")).late_post_id = basePost.late_post_id ∧
    (ScheduledPostRepository.reschedule basePost 200
        (some "EST")).batch_id = basePost.batch_id ∧
    (ScheduledPostRepository.reschedule basePost 200
        (some "EST")).retry_count = basePost.retry_count ∧
    (ScheduledPostRepository.reschedule basePost 200
        (some "EST")).error_message = basePost.error_message ∧
    (ScheduledPostRepository.reschedule basePost 200
        (some "EST")).failed_at = basePost.failed_at ∧
    (ScheduledPostRepository.reschedule basePost 200
        (some "EST")).published_at = basePost.published_at ∧
    (ScheduledPostRepository.reschedule basePost 200
        (some "EST")).platform = basePost.platform ∧
    (ScheduledPostRepository.reschedule basePost 200
        (some "EST")).schedule_mode = basePost.schedule_mode ∧
    (ScheduledPostRepository.reschedule basePost 200
        (some "EST")).platform_specific_config
      = basePost.platform_specific_config ∧
    (ScheduledPostRepository.reschedule basePost 200
        (some "EST")).id = basePost.id ∧
    (ScheduledPostRepository.reschedule basePost 200
        (some "EST")).content_library_item_id
      = basePost.content_library_item_id ∧
    (ScheduledPostRepository.reschedule basePost 200
        (some "EST")).connected_account_id
      = basePost.connected_account_id ∧
    (ScheduledPostRepository.reschedule basePost 200
        (some "EST")).late_status = basePost.late_status ∧
    (ScheduledPostRepository.reschedule basePost 200
        (some "EST")).platform_post_id = basePost.platform_post_id ∧
    (ScheduledPostRepository.reschedule basePost 200
        (some "EST")).platform_post_url = basePost.platform_post_url ∧
    (ScheduledPostRepository.reschedule basePost 200
        (some "EST")).created_at = basePost.created_at :=
  reschedule_frame_only basePost 200 (some "EST") ⟨by decide, by decide⟩

/-- Claim C6 (confirmed): when the external create call fails with a
Late API error carrying a non-empty message, `_sync_to_late` moves the post
to `FAILED` with `retry_count` incremented by one, the message recorded and
`failed_at` stamped, commits that state (so it is persisted — the working
and durable views agree and contain the failed row), and re-raises the
error to its caller. -/
theorem push_failure_recorded (env : Env) (now : Int) (e : String)
    (s : SessionState) (p : ScheduledPost) (c : ContentLibraryItem)
    (a : ConnectedAccount) (he : ¬ e = "")
    (hc : env.get_content p.content_library_item_id = some c)
    (ha : env.get_account p.connected_account_id = some a)
    (hp : s.get p.id = some p) :
    (SchedulerService.sync_to_late env now (Except.error e) s p).2.2
      = Except.error (SchedError.lateApiError e) ∧
    (SchedulerService.sync_to_late env now (Except.error e) s p).1.committed
      = (SchedulerService.sync_to_late env now (Except.error e) s p).1.posts ∧
    ∃ q, (SchedulerService.sync_to_late env now (Except.error e) s
          p).1.get p.id = some q ∧
      q ∈ (SchedulerService.sync_to_late env now (Except.error e) s
          p).1.committed ∧
      q.status = ScheduleStatus.failed ∧
      q.retry_count = p.retry_count + 1 ∧
      q.error_message = some e ∧
      q.failed_at = some now := by
  unfold SchedulerService.sync_to_late
  rw [hc, ha]
  dsimp only
  rw [update_status_failed_msg now p e he]
  refine ⟨rfl, rfl, ?_⟩
  refine ⟨_, get_put_commit_eq s p.id p _ hp rfl, ?_, rfl, rfl, rfl, rfl⟩
  exact List.mem_of_find?_eq_some (get_put_commit_eq s p.id p _ hp rfl)

/-- Witness for C6: a pending post in `baseEnv` whose external create fails
with message `boom`. -/
theorem push_failure_recorded_witness :
    (SchedulerService.sync_to_late baseEnv 500 (Except.error "boom")
        ⟨[basePost], [basePost]⟩ basePost).2.2
      = Except.error (SchedError.lateApiError "boom") ∧
    (SchedulerService.sync_to_late baseEnv 500 (Except.error "boom")
        ⟨[basePost], [basePost]⟩ basePost).1.committed
      = (SchedulerService.sync_to_late baseEnv 500 (Except.error "boom")
        ⟨[basePost], [basePost]⟩ basePost).1.posts ∧
    ∃ q, (SchedulerService.sync_to_late baseEnv 500 (Except.error "boom")
          ⟨[basePost], [basePost]⟩ basePost).1.get basePost.id = some q ∧
      q ∈ (SchedulerService.sync_to_late baseEnv 500 (Except.error "boom")
          ⟨[basePost], [basePost]⟩ basePost).1.committed ∧
      q.status = ScheduleStatus.failed ∧
      q.retry_count = basePost.retry_count + 1 ∧
      q.error_message = some "boom" ∧
      q.failed_at = some 500 :=
  push_failure_recorded baseEnv 500 "boom" ⟨[basePost], [basePost]⟩ basePost
    baseContent baseAccount (by decide) (by decide) (by decide) (by decide)

/-- Claim C2 (corrected): `_sync_to_late` performs no idempotency check on
`late_post_id` — whatever its current value, as long as the content and
account exist it issues exactly one external create request.  When the
create succeeds with a status the `LatePostStatus` enum recognizes, the
call completes and overwrites `late_post_id` with the id of the newly
created remote post; when the returned status is unrecognized, the enum
conversion raises a `ValueError` and the local post is untouched — but the
second remote post has already been created either way.  A second push on
an already-pushed post therefore creates a second remote post rather than
being rejected or short-circuited. -/
theorem push_has_no_idempotency_guard (env : Env) (now : Int)
    (o : Except String LatePost) (s : SessionState) (p : ScheduledPost)
    (c : ContentLibraryItem) (a : ConnectedAccount)
    (hc : env.get_content p.content_library_item_id = some c)
    (ha : env.get_account p.connected_account_id = some a) :
    (SchedulerService.sync_to_late env now o s p).2.1.creates.length = 1 ∧
    (∀ lp ls, o = Except.ok lp →
      LatePostStatus.ofString lp.status = some ls →
      (SchedulerService.sync_to_late env now o s p).2.2.toOption.map
        ScheduledPost.late_post_id = some (some lp.id)) ∧
    (∀ lp, o = Except.ok lp →
      LatePostStatus.ofString lp.status = none →
      (SchedulerService.sync_to_late env now o s p).1 = s ∧
      (SchedulerService.sync_to_late env now o s p).2.2
        = Except.error (SchedError.valueError
            (lp.status ++ " is not a valid LatePostStatus"))) := by
  unfold SchedulerService.sync_to_late
  rw [hc, ha]
  cases o with
  | ok lp =>
    dsimp only
    refine ⟨?_, ?_, ?_⟩
    · cases hls : LatePostStatus.ofString lp.status with
      | some ls => rfl
      | none => rfl
    · intro lp2 ls hl hls
      injection hl with h2
      subst h2
      rw [hls]
      simp [Except.toOption, update_status_late_id_some]
    · intro lp2 hl hnone
      injection hl with h2
      subst h2
      rw [hnone]
      exact ⟨rfl, rfl⟩
  | error e =>
    refine ⟨rfl, ?_, ?_⟩
    · intro lp ls hl hls
      cases hl
    · intro lp hl hn
      cases hl

/-- Witness for C2: a second push of `syncedPost` (remote id `ext-1`)
against `baseEnv`, with the external service answering with a new remote
post `ext-2` in the recognized status `pending`. -/
theorem push_has_no_idempotency_guard_witness :
    (SchedulerService.sync_to_late baseEnv 500
        (Except.ok ⟨"ext-2", "pending", []⟩) syncedSession
        syncedPost).2.1.creates.length = 1 ∧
    (∀ lp ls, (Except.ok ⟨"ext-2", "pending", []⟩ :
        Except String LatePost) = Except.ok lp →
      LatePostStatus.ofString lp.status = some ls →
      (SchedulerService.sync_to_late baseEnv 500
          (Except.ok ⟨"ext-2", "pending", []⟩) syncedSession
          syncedPost).2.2.toOption.map ScheduledPost.late_post_id
        = some (some lp.id)) ∧
    (∀ lp, (Except.ok ⟨"ext-2", "pending", []⟩ :
        Except String LatePost) = Except.ok lp →
      LatePostStatus.ofString lp.status = none →
      (SchedulerService.sync_to_late baseEnv 500
          (Except.ok ⟨"ext-2", "pending", []⟩) syncedSession
          syncedPost).1 = syncedSession ∧
      (SchedulerService.sync_to_late baseEnv 500
          (Except.ok ⟨"ext-2", "pending", []⟩) syncedSession
          syncedPost).2.2 = Except.error (SchedError.valueError
            (lp.status ++ " is not a valid LatePostStatus"))) :=
  push_has_no_idempotency_guard baseEnv 500
    (Except.ok ⟨"ext-2", "pending", []⟩) syncedSession syncedPost
    baseContent baseAccount (by decide) (by decide)

/-- Claim C3 (corrected): remote deletion during `cancel` is *not*
best-effort.  For a non-`PUBLISHED` post with a (truthy) remote id, a
failing external delete makes `cancel` re-raise the `LateApiError` to its
caller with the session unchanged — the local status does *not* become
`CANCELLED`; the local status becomes `CANCELLED` exactly when the external
delete succeeds. -/
theorem cancel_is_not_best_effort (del : Except String Unit)
    (s : SessionState) (pid : Nat) (p : ScheduledPost) (lid : String)
    (hget : s.get pid = some p)
    (hnp : ¬ p.status = ScheduleStatus.published)
    (hl : p.late_post_id = some lid) (hne : ¬ lid = "") :
    (∀ e, del = Except.error e →
      SchedulerService.cancel del s pid
        = (s, ⟨[], [], [lid]⟩,
            Except.error (SchedError.lateApiError e))) ∧
    (del = Except.ok () →
      ∃ q, SchedulerService.cancel del s pid
          = ((s.put q).commit, ⟨[], [], [lid]⟩, Except.ok q) ∧
        q.status = ScheduleStatus.cancelled ∧
        (SchedulerService.cancel del s pid).1.get pid = some q) := by
  have h5 : truthy (some lid) = true := by
    simp [truthy, hne]
  unfold SchedulerService.cancel SchedulerService.delete_from_late
  rw [hget]
  dsimp only
  rw [hl, if_neg hnp, if_pos h5, if_pos h5]
  simp only [Option.getD_some]
  cases del with
  | error e =>
    constructor
    · intro e2 he2
      injection he2 with h2
      subst h2
      dsimp only
    · intro hok; cases hok
  | ok u =>
    constructor
    · intro e2 he2; cases he2
    · intro hok
      dsimp only
      refine ⟨ScheduledPostRepository.cancel p, rfl, rfl, ?_⟩
      exact get_put_commit_eq s pid p (ScheduledPostRepository.cancel p)
        hget rfl

/-- Witness for C3: cancelling `syncedPost` with the external delete
succeeding. -/
theorem cancel_is_not_best_effort_witness :
    (∀ e, (Except.ok () : Except String Unit) = Except.error e →
      SchedulerService.cancel (Except.ok ()) syncedSession 1
        = (syncedSession, ⟨[], [], ["ext-1"]⟩,
            Except.error (SchedError.lateApiError e))) ∧
    ((Except.ok () : Except String Unit) = Except.ok () →
      ∃ q, SchedulerService.cancel (Except.ok ()) syncedSession 1
          = ((syncedSession.put q).commit, ⟨[], [], ["ext-1"]⟩,
              Except.ok q) ∧
        q.status = ScheduleStatus.cancelled ∧
        (SchedulerService.cancel (Except.ok ()) syncedSession 1).1.get 1
          = some q) :=
  cancel_is_not_best_effort (Except.ok ()) syncedSession 1 syncedPost "ext-1"
    (by decide) (by decide) (by decide) (by decide)

/-- Claim C4 (corrected): rescheduling a `SCHEDULED` post with a (truthy)
remote post id demotes it to `PENDING_SYNC` and issues exactly one external
`update_post` request against that unchanged remote id — but when the
remote update *succeeds*, `_update_late_schedule` restores the status to
`SCHEDULED`, so the post ends the call `SCHEDULED`, not `PENDING_SYNC`; it
remains `PENDING_SYNC` only when the remote update fails. -/
theorem reschedule_synced_amended (now : Int) (upd : Except String Unit)
    (s : SessionState) (pid : Nat) (p : ScheduledPost) (t : Int)
    (tz : Option String) (lid : String)
    (hget : s.get pid = some p)
    (hst : p.status = ScheduleStatus.scheduled)
    (hl : p.late_post_id = some lid) (hne : ¬ lid = "") :
    (SchedulerService.reschedule now upd s pid t tz).2.1.updates.length
      = 1 ∧
    (∀ u ∈ (SchedulerService.reschedule now upd s pid t tz).2.1.updates,
      u.late_post_id = lid ∧ u.scheduled_for = t) ∧
    (upd = Except.ok () →
      ∃ q, (SchedulerService.reschedule now upd s pid t tz).2.2
          = Except.ok q ∧
        q.status = ScheduleStatus.scheduled ∧
        q.late_post_id = some lid ∧
        (SchedulerService.reschedule now upd s pid t tz).1.get pid
          = some q) ∧
    (∀ e, upd = Except.error e →
      (SchedulerService.reschedule now upd s pid t tz).2.2
        = Except.error (SchedError.lateApiError e) ∧
      ∃ q, (SchedulerService.reschedule now upd s pid t tz).1.get pid
          = some q ∧
        q.status = ScheduleStatus.pending_sync ∧
        q.late_post_id = some lid) := by
  have hns : ¬ (p.status = ScheduleStatus.published ∨
      p.status = ScheduleStatus.cancelled) := by
    simp [hst]
  have hspec := reschedule_spec p t tz
  have hp1st : (ScheduledPostRepository.reschedule p t tz).status
      = ScheduleStatus.pending_sync := by
    rw [hspec]; simp [hst]
  have hp1l : (ScheduledPostRepository.reschedule p t tz).late_post_id
      = some lid := by
    rw [hspec]; exact hl
  have hp1sf : (ScheduledPostRepository.reschedule p t tz).scheduled_for
      = t := by
    rw [hspec]
  have hp1id : (ScheduledPostRepository.reschedule p t tz).id = p.id := by
    rw [hspec]
  have h5 : truthy (ScheduledPostRepository.reschedule p t tz).late_post_id
      = true := by
    rw [hp1l]; simp [truthy, hne]
  unfold SchedulerService.reschedule SchedulerService.update_late_schedule
  rw [hget]
  dsimp only
  rw [if_neg hns, if_pos h5, if_pos h5, hp1l]
  simp only [Option.getD_some]
  cases upd with
  | ok u =>
    dsimp only
    refine ⟨rfl, ?_, ?_, ?_⟩
    · intro u2 hu2
      simp only [List.mem_singleton] at hu2
      subst hu2
      exact ⟨rfl, hp1sf⟩
    · intro hok
      refine ⟨_, rfl, update_status_status now _ ScheduleStatus.scheduled
          none none none none none, ?_, ?_⟩
      · rw [update_status_late_id_none, hp1l]
      · exact get_put_commit_eq _ pid (ScheduledPostRepository.reschedule p t tz)
          _ (get_put_commit_eq s pid p _ hget hp1id)
          ((update_status_frame now _ ScheduleStatus.scheduled
            none none none none none).1)
    · intro e he; cases he
  | error e =>
    dsimp only
    refine ⟨rfl, ?_, ?_, ?_⟩
    · intro u2 hu2
      simp only [List.mem_singleton] at hu2
      subst hu2
      exact ⟨rfl, hp1sf⟩
    · intro hok; cases hok
    · intro e2 he2
      injection he2 with h2
      subst h2
      exact ⟨rfl, ⟨_, get_put_commit_eq s pid p _ hget hp1id, hp1st, hp1l⟩⟩

/-- Witness for C4: rescheduling `syncedPost` (status `SCHEDULED`, remote id
`ext-1`) to time 900 with a successful remote update. -/
theorem reschedule_synced_amended_witness :
    (SchedulerService.reschedule 500 (Except.ok ()) syncedSession 1 900
        none).2.1.updates.length = 1 ∧
    (∀ u ∈ (SchedulerService.reschedule 500 (Except.ok ()) syncedSession 1
        900 none).2.1.updates,
      u.late_post_id = "ext-1" ∧ u.scheduled_for = 900) ∧
    ((Except.ok () : Except String Unit) = Except.ok () →
      ∃ q, (SchedulerService.reschedule 500 (Except.ok ()) syncedSession 1
          900 none).2.2 = Except.ok q ∧
        q.status = ScheduleStatus.scheduled ∧
        q.late_post_id = some "ext-1" ∧
        (SchedulerService.reschedule 500 (Except.ok ()) syncedSession 1 900
          none).1.get 1 = some q) ∧
    (∀ e, (Except.ok () : Except String Unit) = Except.error e →
      (SchedulerService.reschedule 500 (Except.ok ()) syncedSession 1 900
          none).2.2 = Except.error (SchedError.lateApiError e) ∧
      ∃ q, (SchedulerService.reschedule 500 (Except.ok ()) syncedSession 1
          900 none).1.get 1 = some q ∧
        q.status = ScheduleStatus.pending_sync ∧
        q.late_post_id = some "ext-1") :=
  reschedule_synced_amended 500 (Except.ok ()) syncedSession 1 syncedPost
    900 none "ext-1" (by decide) (by decide) (by decide) (by decide)

/-- Claim C8 (corrected): an explicit re-schedule of a `FAILED` post does
*not* return it to `PENDING_SYNC` — the repository demotion applies only to
`SCHEDULED` posts.  A `FAILED` post without a truthy remote id stays
`FAILED`; one with a truthy remote id ends `SCHEDULED` when the remote
update succeeds and stays `FAILED` when it fails; in no case does a
re-schedule leave a `FAILED` post in `PENDING_SYNC`. -/
theorem reschedule_failed_amended (now : Int) (upd : Except String Unit)
    (s : SessionState) (pid : Nat) (p : ScheduledPost) (t : Int)
    (tz : Option String)
    (hget : s.get pid = some p)
    (hst : p.status = ScheduleStatus.failed) :
    (truthy p.late_post_id = false →
      ∃ q, (SchedulerService.reschedule now upd s pid t tz).2.2
          = Except.ok q ∧
        q.status = ScheduleStatus.failed ∧
        (SchedulerService.reschedule now upd s pid t tz).1.get pid
          = some q) ∧
    (truthy p.late_post_id = true →
      (upd = Except.ok () →
        ∃ q, (SchedulerService.reschedule now upd s pid t tz).2.2
            = Except.ok q ∧
          q.status = ScheduleStatus.scheduled) ∧
      (∀ e, upd = Except.error e →
        ∃ q, (SchedulerService.reschedule now upd s pid t tz).1.get pid
            = some q ∧
          q.status = ScheduleStatus.failed)) ∧
    (∀ q, (SchedulerService.reschedule now upd s pid t tz).2.2
        = Except.ok q → ¬ q.status = ScheduleStatus.pending_sync) := by
  have hns : ¬ (p.status = ScheduleStatus.published ∨
      p.status = ScheduleStatus.cancelled) := by
    simp [hst]
  have hspec := reschedule_spec p t tz
  have hp1st : (ScheduledPostRepository.reschedule p t tz).status
      = ScheduleStatus.failed := by
    rw [hspec]; simp [hst]
  have hp1l : (ScheduledPostRepository.reschedule p t tz).late_post_id
      = p.late_post_id := by
    rw [hspec]
  have hp1id : (ScheduledPostRepository.reschedule p t tz).id = p.id := by
    rw [hspec]
  unfold SchedulerService.reschedule SchedulerService.update_late_schedule
  rw [hget]
  dsimp only
  rw [if_neg hns, hp1l]
  by_cases hlt : truthy p.late_post_id = true
  · rw [if_pos hlt, if_pos hlt]
    cases upd with
    | ok u =>
      dsimp only
      refine ⟨?_, ?_, ?_⟩
      · intro hfalse; rw [hlt] at hfalse; cases hfalse
      · intro _
        refine ⟨fun hok => ⟨_, rfl, update_status_status now _
            ScheduleStatus.scheduled none none none none none⟩, ?_⟩
        intro e he; cases he
      · intro q hq
        injection hq with h2
        subst h2
        rw [update_status_status]
        decide
    | error e =>
      dsimp only
      refine ⟨?_, ?_, ?_⟩
      · intro hfalse; rw [hlt] at hfalse; cases hfalse
      · intro _
        constructor
        · intro hok; cases hok
        · intro e2 he2
          injection he2 with h2
          subst h2
          exact ⟨_, get_put_commit_eq s pid p _ hget hp1id, hp1st⟩
      · intro q hq; cases hq
  · rw [if_neg hlt]
    dsimp only
    refine ⟨?_, ?_, ?_⟩
    · intro _
      exact ⟨_, rfl, hp1st, get_put_commit_eq s pid p _ hget hp1id⟩
    · intro htrue; exact absurd htrue hlt
    · intro q hq
      injection hq with h2
      subst h2
      rw [hp1st]
      decide

/-- Witness for C8: rescheduling `failedPost` (status `FAILED`, no remote
id) to time 900. -/
theorem reschedule_failed_amended_witness :
    (truthy failedPost.late_post_id = false →
      ∃ q, (SchedulerService.reschedule 500 (Except.ok ()) failedSession 1
          900 none).2.2 = Except.ok q ∧
        q.status = ScheduleStatus.failed ∧
        (SchedulerService.reschedule 500 (Except.ok ()) failedSession 1 900
          none).1.get 1 = some q) ∧
    (truthy failedPost.late_post_id = true →
      ((Except.ok () : Except String Unit) = Except.ok () →
        ∃ q, (SchedulerService.reschedule 500 (Except.ok ()) failedSession 1
            900 none).2.2 = Except.ok q ∧
          q.status = ScheduleStatus.scheduled) ∧
      (∀ e, (Except.ok () : Except String Unit) = Except.error e →
        ∃ q, (SchedulerService.reschedule 500 (Except.ok ()) failedSession 1
            900 none).1.get 1 = some q ∧
          q.status = ScheduleStatus.failed)) ∧
    (∀ q, (SchedulerService.reschedule 500 (Except.ok ()) failedSession 1
        900 none).2.2 = Except.ok q →
      ¬ q.status = ScheduleStatus.pending_sync) :=
  reschedule_failed_amended 500 (Except.ok ()) failedSession 1 failedPost
    900 none (by decide) (by decide)

/-- The creation loop of `schedule_multi` never commits: the durable view is
untouched whatever it does. -/
theorem schedule_multi_create_committed (env : Env) (now : Int) (cid : Nat)
    (b tz : String) (sync : Bool) (scheds : List AccountSchedule) :
    ∀ (s : SessionState) (nid : Nat) (acc : List ScheduledPost),
      (SchedulerService.schedule_multi_create env now cid b tz sync scheds s
          nid acc).1.committed = s.committed := by
  induction scheds with
  | nil => intro s nid acc; rfl
  | cons sched rest ih =>
    intro s nid acc
    unfold SchedulerService.schedule_multi_create
    cases hacc : env.get_account sched.connected_account_id with
    | none => rfl
    | some account =>
      dsimp only
      by_cases hact : account.is_active
      · rw [if_neg (by simp [hact])]
        exact ih _ _ _
      · rw [if_pos (by simp [hact])]

/-- Claim C5 (corrected): when the creation loop of `schedule_multi` fails
(a later account missing or inactive), the whole call re-raises that error
*before* its single commit, so the durable state is unchanged — the posts
already created for earlier accounts exist only in the uncommitted working
session and are *not* persisted as a partial batch (nor explicitly rolled
back: the service itself performs neither commit nor rollback). -/
theorem schedule_multi_failure_uncommitted (env : Env) (now : Int)
    (nid : Nat) (b : String) (oracle : Nat → Except String LatePost)
    (s : SessionState) (cid : Nat) (scheds : List AccountSchedule)
    (tz : String) (sync : Bool) (c : ContentLibraryItem) (err : SchedError)
    (hc : env.get_content cid = some c)
    (hfail : (SchedulerService.schedule_multi_create env now cid b tz sync
        scheds s nid []).2.2 = Except.error err) :
    (SchedulerService.schedule_multi env now nid b oracle s cid scheds tz
        sync).2.2 = Except.error err ∧
    (SchedulerService.schedule_multi env now nid b oracle s cid scheds tz
        sync).1.committed = s.committed := by
  unfold SchedulerService.schedule_multi
  rw [hc]
  dsimp only
  have hcom := schedule_multi_create_committed env now cid b tz sync scheds
    s nid []
  rcases hsc : SchedulerService.schedule_multi_create env now cid b tz sync
      scheds s nid [] with ⟨s1, nid1, r⟩
  rw [hsc] at hfail hcom
  dsimp only at hfail hcom
  subst hfail
  exact ⟨rfl, hcom⟩

/-- Witness for C5: a two-account batch whose second account is inactive,
starting from an empty session — the error propagates and nothing is
committed. -/
theorem schedule_multi_failure_uncommitted_witness :
    (SchedulerService.schedule_multi
        ⟨[baseAccount, ⟨21, "tiktok", "late-acc-21", false⟩], [baseContent]⟩
        500 100 "batch-1" (fun _ => Except.error "unused") emptySession 10
        [⟨20, 600, none⟩, ⟨21, 700, none⟩] "UTC" true).2.2
      = Except.error (SchedError.valueError "Account tiktok is not active") ∧
    (SchedulerService.schedule_multi
        ⟨[baseAccount, ⟨21, "tiktok", "late-acc-21", false⟩], [baseContent]⟩
        500 100 "batch-1" (fun _ => Except.error "unused") emptySession 10
        [⟨20, 600, none⟩, ⟨21, 700, none⟩] "UTC" true).1.committed
      = emptySession.committed :=
  schedule_multi_failure_uncommitted
    ⟨[baseAccount, ⟨21, "tiktok", "late-acc-21", false⟩], [baseContent]⟩
    500 100 "batch-1" (fun _ => Except.error "unused") emptySession 10
    [⟨20, 600, none⟩, ⟨21, 700, none⟩] "UTC" true baseContent
    (SchedError.valueError "Account tiktok is not active")
    (by decide) (by decide)

/-- When content and account exist and a successful create carries a
recognized status, `_sync_to_late` either succeeds or raises a
`LateApiError`; it never raises anything else. -/
theorem sync_to_late_cases (env : Env) (now : Int)
    (o : Except String LatePost) (s : SessionState) (p : ScheduledPost)
    (c : ContentLibraryItem) (a : ConnectedAccount)
    (hc : env.get_content p.content_library_item_id = some c)
    (ha : env.get_account p.connected_account_id = some a)
    (hrec : okStatusRecognized o = true) :
    (∃ q s2 tr, SchedulerService.sync_to_late env now o s p
        = (s2, tr, Except.ok q)) ∨
    (∃ e s2 tr, SchedulerService.sync_to_late env now o s p
        = (s2, tr, Except.error (SchedError.lateApiError e))) := by
  unfold SchedulerService.sync_to_late
  rw [hc, ha]
  cases o with
  | ok lp =>
    unfold okStatusRecognized at hrec
    obtain ⟨ls, hls⟩ := Option.isSome_iff_exists.mp hrec
    dsimp only
    rw [hls]
    exact Or.inl ⟨_, _, _, rfl⟩
  | error e => exact Or.inr ⟨e, _, _, rfl⟩

/-- The sweep loop terminates with counts summing to the number of posts it
was given, provided every post's content and account exist and every
successful create response carries a recognized status. -/
theorem sync_pending_loop_total (env : Env) (now : Int)
    (oracle : Nat → Except String LatePost) (l : List ScheduledPost) :
    ∀ (s : SessionState) (tr : SyncTrace) (synced failed : Nat),
      (∀ p ∈ l, (env.get_content p.content_library_item_id).isSome ∧
          (env.get_account p.connected_account_id).isSome ∧
          okStatusRecognized (oracle p.id) = true) →
      ∃ a b, (SchedulerService.sync_pending_loop env now oracle l s tr
          synced failed).2.2 = Except.ok (a, b) ∧
        a + b = synced + failed + l.length := by
  induction l with
  | nil =>
    intro s tr sy f _
    exact ⟨sy, f, rfl, by simp⟩
  | cons p rest ih =>
    intro s tr sy f hok
    obtain ⟨hcs, has, hrec⟩ := hok p (List.mem_cons_self p rest)
    obtain ⟨c, hc⟩ := Option.isSome_iff_exists.mp hcs
    obtain ⟨a, ha⟩ := Option.isSome_iff_exists.mp has
    have hrest := fun q hq => hok q (List.mem_cons_of_mem p hq)
    unfold SchedulerService.sync_pending_loop
    rcases sync_to_late_cases env now (oracle p.id) s p c a hc ha hrec with
      ⟨q, s2, tr2, heq⟩ | ⟨e, s2, tr2, heq⟩
    · rw [heq]
      dsimp only
      obtain ⟨x, y, hxy, hsum⟩ := ih s2 (tr.append tr2) (sy + 1) f hrest
      exact ⟨x, y, hxy, by rw [hsum]; simp; omega⟩
    · rw [heq]
      dsimp only
      obtain ⟨x, y, hxy, hsum⟩ := ih s2 (tr.append tr2) sy (f + 1) hrest
      exact ⟨x, y, hxy, by rw [hsum]; simp; omega⟩

/-- Claim C7 (corrected): `sync_pending` selects exactly the posts in
`PENDING_SYNC` (a `FAILED` or otherwise-statused post is never selected),
ordered oldest first by `created_at`, and — *provided every selected post's
content and account exist and every successful create response carries a
status the `LatePostStatus` enum recognizes* — an external-service failure
on one post does not abort the rest and the returned `(synced, failed)`
counts sum to the number of selected posts.  Both provisos are necessary:
a missing content or account (see the counterexample), or a successful
create whose response status is outside the enum, raises an uncaught
`ValueError` that aborts the sweep. -/
theorem sweep_contract_amended (env : Env) (now : Int)
    (oracle : Nat → Except String LatePost) (s : SessionState)
    (hok : ∀ p ∈ ScheduledPostRepository.get_pending_sync s.posts,
        (env.get_content p.content_library_item_id).isSome ∧
        (env.get_account p.connected_account_id).isSome ∧
        okStatusRecognized (oracle p.id) = true) :
    (∀ q, q ∈ ScheduledPostRepository.get_pending_sync s.posts ↔
        (q ∈ s.posts ∧ q.status = ScheduleStatus.pending_sync)) ∧
    List.Sorted createdLe (ScheduledPostRepository.get_pending_sync
      s.posts) ∧
    ∃ a b, (SchedulerService.sync_pending env now oracle s).2.2
        = Except.ok (a, b) ∧
      a + b = (ScheduledPostRepository.get_pending_sync s.posts).length := by
  refine ⟨?_, ?_, ?_⟩
  · intro q
    unfold ScheduledPostRepository.get_pending_sync
    rw [List.mem_insertionSort, List.mem_filter]
    simp
  · exact List.sorted_insertionSort createdLe _
  · unfold SchedulerService.sync_pending
    obtain ⟨x, y, hxy, hsum⟩ := sync_pending_loop_total env now oracle
      (ScheduledPostRepository.get_pending_sync s.posts) s SyncTrace.empty
      0 0 hok
    exact ⟨x, y, hxy, by simpa using hsum⟩

/-- Witness for C7: two valid `PENDING_SYNC` posts, the older one failing
externally and the younger one succeeding. -/
theorem sweep_contract_amended_witness :
    (∀ q, q ∈ ScheduledPostRepository.get_pending_sync
        sweepOkSession.posts ↔
      (q ∈ sweepOkSession.posts ∧
        q.status = ScheduleStatus.pending_sync)) ∧
    List.Sorted createdLe (ScheduledPostRepository.get_pending_sync
      sweepOkSession.posts) ∧
    ∃ a b, (SchedulerService.sync_pending baseEnv 500
        (fun i => if i = 1 then Except.error "boom"
          else Except.ok ⟨"L", "pending", []⟩)
        sweepOkSession).2.2 = Except.ok (a, b) ∧
      a + b = (ScheduledPostRepository.get_pending_sync
        sweepOkSession.posts).length :=
  sweep_contract_amended baseEnv 500
    (fun i => if i = 1 then Except.error "boom"
      else Except.ok ⟨"L", "pending", []⟩)
    sweepOkSession (by decide)

/-- Reduction of an `if` over a decided-true boolean test. -/
theorem ite_bool_true {α : Type} (a b : α) :
    (if (true = true) then a else b) = a :=
  if_pos rfl

/-- Reduction of an `if` over a decided-false boolean test. -/
theorem ite_bool_false {α : Type} (a b : α) :
    (if (false = true) then a else b) = b :=
  if_neg (by decide)

/-- A successful `_sync_to_late` never changes the grouping fields of the
post it returns. -/
theorem sync_to_late_groupKey (env : Env) (now : Int)
    (o : Except String LatePost) (s : SessionState) (p : ScheduledPost)
    (s2 : SessionState) (tr : SyncTrace) (q : ScheduledPost)
    (h : SchedulerService.sync_to_late env now o s p
      = (s2, tr, Except.ok q)) :
    groupKey q = groupKey p := by
  unfold SchedulerService.sync_to_late at h
  cases hc : env.get_content p.content_library_item_id with
  | none =>
    rw [hc] at h
    cases ha : env.get_account p.connected_account_id with
    | none => rw [ha] at h; simp at h
    | some a => rw [ha] at h; simp at h
  | some c =>
    rw [hc] at h
    cases ha : env.get_account p.connected_account_id with
    | none => rw [ha] at h; simp at h
    | some a =>
      rw [ha] at h
      cases o with
      | error e => simp at h
      | ok lp =>
        dsimp only at h
        cases hls : LatePostStatus.ofString lp.status with
        | none =>
          rw [hls] at h
          simp at h
        | some ls =>
          rw [hls] at h
          dsimp only at h
          simp only [Prod.mk.injEq] at h
          obtain ⟨-, -, h3⟩ := h
          injection h3 with h4
          rw [← h4]
          obtain ⟨-, f2, f3, -, -, -, f7, f8, -, -⟩ :=
            update_status_frame now p ScheduleStatus.scheduled (some lp.id)
              (some ls) none none none
          simp [groupKey, f2, f3, f7, f8]

/-- Every post created by the `schedule_multi` creation loop carries the
shared batch id, the multi-platform mode, the shared content id, and — in
list order — exactly the account ids of the supplied schedule entries. -/
theorem schedule_multi_create_fields (env : Env) (now : Int) (cid : Nat)
    (b tz : String) (sync : Bool) (scheds : List AccountSchedule) :
    ∀ (s : SessionState) (nid : Nat) (acc posts : List ScheduledPost),
      (SchedulerService.schedule_multi_create env now cid b tz sync scheds s
          nid acc).2.2 = Except.ok posts →
      ∃ newPosts, posts = acc ++ newPosts ∧
        newPosts.map (fun p => p.connected_account_id)
          = scheds.map (fun x => x.connected_account_id) ∧
        ∀ p ∈ newPosts, p.batch_id = some b ∧
          p.schedule_mode = ScheduleMode.multi_platform ∧
          p.content_library_item_id = cid := by
  induction scheds with
  | nil =>
    intro s nid acc posts h
    unfold SchedulerService.schedule_multi_create at h
    dsimp only at h
    injection h with h2
    subst h2
    exact ⟨[], by simp, rfl, by simp⟩
  | cons sched rest ih =>
    intro s nid acc posts h
    unfold SchedulerService.schedule_multi_create at h
    cases hacc : env.get_account sched.connected_account_id with
    | none => rw [hacc] at h; simp at h
    | some account =>
      rw [hacc] at h
      dsimp only at h
      by_cases hact : account.is_active
      · rw [if_neg (by simp [hact])] at h
        obtain ⟨newRest, hpost, hmap, hall⟩ := ih _ _ _ _ h
        obtain ⟨-, g2, g3, -, -, -, g7, g8, -, -⟩ :=
          update_status_frame now
            (ScheduledPostRepository.create nid cid
              sched.connected_account_id account.platform
              sched.scheduled_for ScheduleMode.multi_platform tz (some b)
              sched.platform_specific_config now)
            (if sync then ScheduleStatus.pending_sync
              else ScheduleStatus.draft) none none none none none
        refine ⟨ScheduledPostRepository.update_status now
            (ScheduledPostRepository.create nid cid
              sched.connected_account_id account.platform
              sched.scheduled_for ScheduleMode.multi_platform tz (some b)
              sched.platform_specific_config now)
            (if sync then ScheduleStatus.pending_sync
              else ScheduleStatus.draft) none none none none none
            :: newRest, ?_, ?_, ?_⟩
        · rw [hpost]; simp
        · simp only [List.map_cons, hmap]
          exact congrArg
            (fun z => z :: List.map (fun x => x.connected_account_id) rest)
            (g3.trans rfl)
        · intro p hp
          rcases List.mem_cons.mp hp with hp | hp
          · subst hp
            exact ⟨g8.trans rfl, g7.trans rfl, g2.trans rfl⟩
          · exact hall p hp
      · rw [if_pos (by simp [hact])] at h
        simp at h

/-- A successful sync loop of `schedule_multi` returns the incoming posts
with their grouping fields untouched. -/
theorem schedule_multi_sync_groupKeys (env : Env) (now : Int)
    (oracle : Nat → Except String LatePost) (l : List ScheduledPost) :
    ∀ (s : SessionState) (tr : SyncTrace) (done : List ScheduledPost)
      (s3 : SessionState) (tr3 : SyncTrace) (out : List ScheduledPost),
      SchedulerService.schedule_multi_sync env now oracle l s tr done
        = (s3, tr3, out, Except.ok ()) →
      out.map groupKey = done.map groupKey ++ l.map groupKey := by
  induction l with
  | nil =>
    intro s tr done s3 tr3 out h
    unfold SchedulerService.schedule_multi_sync at h
    simp only [Prod.mk.injEq] at h
    obtain ⟨-, -, h3, -⟩ := h
    rw [← h3]
    simp
  | cons p rest ih =>
    intro s tr done s3 tr3 out h
    unfold SchedulerService.schedule_multi_sync at h
    rcases hst : SchedulerService.sync_to_late env now (oracle p.id) s p
      with ⟨s2, tr2, r⟩
    rw [hst] at h
    cases r with
    | ok p2 =>
      dsimp only at h
      have hgk := sync_to_late_groupKey env now (oracle p.id) s p s2 tr2
        p2 hst
      have hrec := ih _ _ _ _ _ _ h
      rw [hrec]
      simp [hgk]
    | error e =>
      dsimp only at h
      simp only [Prod.mk.injEq] at h
      obtain ⟨-, -, -, h4⟩ := h
      cases h4

/-- Claim C9 (corrected): every post created by one `schedule_multi` call
shares the generated `batch_id`, has `schedule_mode = multi`, and references
the supplied `content_id`, and its account ids are exactly the account ids
of the supplied entries, in order — so they are pairwise distinct *iff the
caller supplied distinct accounts*; the service never validates
distinctness (see the counterexample).  Posts created by `schedule_single`
have no `batch_id` and `schedule_mode = single`, so `batch_id` is present
iff the post was created by a multi schedule. -/
theorem batch_invariant_amended (env : Env) (now : Int) (nid : Nat)
    (b : String) (oracle : Nat → Except String LatePost) (s : SessionState)
    (cid : Nat) (scheds : List AccountSchedule) (tz : String) (sync : Bool)
    (out : String × List ScheduledPost)
    (h : (SchedulerService.schedule_multi env now nid b oracle s cid scheds
        tz sync).2.2 = Except.ok out) :
    out.1 = b ∧
    out.2.map (fun p => p.connected_account_id)
      = scheds.map (fun x => x.connected_account_id) ∧
    (∀ p ∈ out.2, p.batch_id = some b ∧
      p.schedule_mode = ScheduleMode.multi_platform ∧
      p.content_library_item_id = cid) ∧
    ((scheds.map (fun x => x.connected_account_id)).Nodup →
      (out.2.map (fun p => p.connected_account_id)).Nodup) ∧
    (∀ (o1 : Except String LatePost) (aid : Nat) (t1 : Int) (tz1 : String)
        (cfg : Option String) (sync1 : Bool) (q : ScheduledPost),
      (SchedulerService.schedule_single env now nid o1 s cid aid t1 tz1 cfg
          sync1).2.2 = Except.ok q →
      q.batch_id = none ∧
      q.schedule_mode = ScheduleMode.single_platform) := by
  unfold SchedulerService.schedule_multi at h
  cases hc : env.get_content cid with
  | none => rw [hc] at h; simp at h
  | some c =>
    rw [hc] at h
    dsimp only at h
    rcases hsc : SchedulerService.schedule_multi_create env now cid b tz
        sync scheds s nid [] with ⟨s1, nid1, r⟩
    rw [hsc] at h
    cases r with
    | error e => simp at h
    | ok posts =>
      dsimp only at h
      obtain ⟨newPosts, hposts, hmap, hall⟩ :=
        schedule_multi_create_fields env now cid b tz sync scheds s nid []
          posts (by rw [hsc])
      rw [List.nil_append] at hposts
      rw [← hposts] at hmap hall
      have key : out.1 = b ∧ out.2.map groupKey = posts.map groupKey := by
        cases sync with
        | false =>
          rw [ite_bool_false] at h
          dsimp only at h
          injection h with h2
          rw [← h2]
          exact ⟨rfl, rfl⟩
        | true =>
          rw [ite_bool_true] at h
          rcases hsl : SchedulerService.schedule_multi_sync env now oracle
              posts s1.commit SyncTrace.empty [] with ⟨s3, tr3, dp, rr⟩
          rw [hsl] at h
          cases rr with
          | ok u =>
            cases u
            dsimp only at h
            injection h with h2
            rw [← h2]
            refine ⟨rfl, ?_⟩
            have := schedule_multi_sync_groupKeys env now oracle posts
              s1.commit SyncTrace.empty [] s3 tr3 dp hsl
            simpa using this
          | error e => simp at h
      obtain ⟨hb, hK⟩ := key
      have hacc2 : out.2.map (fun p => p.connected_account_id)
          = posts.map (fun p => p.connected_account_id) := by
        have h1 := congrArg (List.map
          (fun k : Option String × ScheduleMode × Nat × Nat => k.2.2.2)) hK
        simpa [List.map_map, Function.comp, groupKey] using h1
      have hmem : ∀ p ∈ out.2, p.batch_id = some b ∧
          p.schedule_mode = ScheduleMode.multi_platform ∧
          p.content_library_item_id = cid := by
        intro p hp
        have h1 : groupKey p ∈ out.2.map groupKey :=
          List.mem_map_of_mem groupKey hp
        rw [hK] at h1
        obtain ⟨p0, hp0, hgk⟩ := List.mem_map.mp h1
        obtain ⟨e1, e2, e3⟩ := hall p0 hp0
        have k1 := congrArg (fun k :
          Option String × ScheduleMode × Nat × Nat => k.1) hgk
        have k2 := congrArg (fun k :
          Option String × ScheduleMode × Nat × Nat => k.2.1) hgk
        have k3 := congrArg (fun k :
          Option String × ScheduleMode × Nat × Nat => k.2.2.1) hgk
        dsimp [groupKey] at k1 k2 k3
        exact ⟨k1.symm.trans e1, k2.symm.trans e2, k3.symm.trans e3⟩
      refine ⟨hb, hacc2.trans hmap, hmem, ?_, ?_⟩
      · intro hnd
        rw [hacc2.trans hmap]
        exact hnd
      · intro o1 aid t1 tz1 cfg sync1 q hq
        unfold SchedulerService.schedule_single at hq
        cases hacc3 : env.get_account aid with
        | none => rw [hacc3] at hq; simp at hq
        | some account =>
          rw [hacc3] at hq
          dsimp only at hq
          by_cases hact : account.is_active
          · rw [if_neg (by simp [hact])] at hq
            rw [hc] at hq
            dsimp only at hq
            obtain ⟨-, -, -, -, -, -, u7, u8, -, -⟩ :=
              update_status_frame now
                (ScheduledPostRepository.create nid cid aid account.platform
                  t1 ScheduleMode.single_platform tz1 none cfg now)
                (if sync1 then ScheduleStatus.pending_sync
                  else ScheduleStatus.draft) none none none none none
            cases sync1 with
            | false =>
              rw [ite_bool_false] at hq
              dsimp only at hq
              injection hq with h2
              rw [← h2]
              exact ⟨u8.trans rfl, u7.trans rfl⟩
            | true =>
              rw [ite_bool_true] at hq
              rcases hst2 : SchedulerService.sync_to_late env now o1 _ _
                with ⟨sx, trx, rx⟩
              rw [hst2] at hq
              cases rx with
              | error e => simp at hq
              | ok q2 =>
                dsimp only at hq
                injection hq with h2
                subst h2
                have hgk := sync_to_late_groupKey env now o1 _ _ sx trx q2
                  hst2
                have k1 := congrArg (fun k :
                  Option String × ScheduleMode × Nat × Nat => k.1) hgk
                have k2 := congrArg (fun k :
                  Option String × ScheduleMode × Nat × Nat => k.2.1) hgk
                dsimp [groupKey] at k1 k2
                exact ⟨(k1.trans u8).trans rfl, (k2.trans u7).trans rfl⟩
          · rw [if_pos (by simp [hact])] at hq
            simp at hq

/-- Witness for C9: a successful two-account batch (`sync` deferred) for
accounts 20 and 22, plus the quantified single-schedule clause. -/
theorem batch_invariant_amended_witness :
    ("batch-1", (exceptPosts (SchedulerService.schedule_multi
        ⟨[baseAccount, ⟨22, "tiktok", "late-acc-22", true⟩], [baseContent]⟩
        500 100 "batch-1" (fun _ => Except.error "unused") emptySession 10
        [⟨20, 600, none⟩, ⟨22, 700, none⟩] "UTC" false).2.2)).1 = "batch-1" ∧
    ("batch-1", (exceptPosts (SchedulerService.schedule_multi
        ⟨[baseAccount, ⟨22, "tiktok", "late-acc-22", true⟩], [baseContent]⟩
        500 100 "batch-1" (fun _ => Except.error "unused") emptySession 10
        [⟨20, 600, none⟩, ⟨22, 700, none⟩] "UTC" false).2.2)).2.map
      (fun p => p.connected_account_id)
      = ([⟨20, 600, none⟩, ⟨22, 700, none⟩] : List AccountSchedule).map
        (fun x => x.connected_account_id) ∧
    (∀ p ∈ ("batch-1", (exceptPosts (SchedulerService.schedule_multi
        ⟨[baseAccount, ⟨22, "tiktok", "late-acc-22", true⟩], [baseContent]⟩
        500 100 "batch-1" (fun _ => Except.error "unused") emptySession 10
        [⟨20, 600, none⟩, ⟨22, 700, none⟩] "UTC" false).2.2)).2,
      p.batch_id = some "batch-1" ∧
      p.schedule_mode = ScheduleMode.multi_platform ∧
      p.content_library_item_id = 10) ∧
    ((([⟨20, 600, none⟩, ⟨22, 700, none⟩] : List AccountSchedule).map
        (fun x => x.connected_account_id)).Nodup →
      (("batch-1", (exceptPosts (SchedulerService.schedule_multi
        ⟨[baseAccount, ⟨22, "tiktok", "late-acc-22", true⟩], [baseContent]⟩
        500 100 "batch-1" (fun _ => Except.error "unused") emptySession 10
        [⟨20, 600, none⟩, ⟨22, 700, none⟩] "UTC" false).2.2)).2.map
        (fun p => p.connected_account_id)).Nodup) ∧
    (∀ (o1 : Except String LatePost) (aid : Nat) (t1 : Int) (tz1 : String)
        (cfg : Option String) (sync1 : Bool) (q : ScheduledPost),
      (SchedulerService.schedule_single
          ⟨[baseAccount, ⟨22, "tiktok", "late-acc-22", true⟩],
            [baseContent]⟩ 500 100 o1 emptySession 10 aid t1 tz1 cfg
          sync1).2.2 = Except.ok q →
      q.batch_id = none ∧
      q.schedule_mode = ScheduleMode.single_platform) :=
  batch_invariant_amended
    ⟨[baseAccount, ⟨22, "tiktok", "late-acc-22", true⟩], [baseContent]⟩
    500 100 "batch-1" (fun _ => Except.error "unused") emptySession 10
    [⟨20, 600, none⟩, ⟨22, 700, none⟩] "UTC" false
    ("batch-1", exceptPosts (SchedulerService.schedule_multi
        ⟨[baseAccount, ⟨22, "tiktok", "late-acc-22", true⟩], [baseContent]⟩
        500 100 "batch-1" (fun _ => Except.error "unused") emptySession 10
        [⟨20, 600, none⟩, ⟨22, 700, none⟩] "UTC" false).2.2)
    (by decide)

/-- `_publish_via_late` either fails with a `ValueError` (missing content
or account, or a successful create with an unrecognized status) or a
`LateApiError`, in both cases without touching the session, or succeeds
committing a `PUBLISHED` post with the same id. -/
theorem publish_via_late_cases (env : Env) (now : Int)
    (pub : Except String LatePost) (s1 : SessionState) (p1 : ScheduledPost) :
    (∃ tr e, SchedulerService.publish_via_late env now pub s1 p1
        = (s1, tr, Except.error (SchedError.valueError e))) ∨
    (∃ tr e, SchedulerService.publish_via_late env now pub s1 p1
        = (s1, tr, Except.error (SchedError.lateApiError e))) ∨
    (∃ tr q, SchedulerService.publish_via_late env now pub s1 p1
        = ((s1.put q).commit, tr, Except.ok q) ∧
      q.status = ScheduleStatus.published ∧ q.id = p1.id) := by
  unfold SchedulerService.publish_via_late
  cases hc : env.get_content p1.content_library_item_id with
  | none =>
    cases ha : env.get_account p1.connected_account_id with
    | none => exact Or.inl ⟨_, _, rfl⟩
    | some a => exact Or.inl ⟨_, _, rfl⟩
  | some c =>
    cases ha : env.get_account p1.connected_account_id with
    | none => exact Or.inl ⟨_, _, rfl⟩
    | some a =>
      cases pub with
      | ok lp =>
        dsimp only
        cases hls : LatePostStatus.ofString lp.status with
        | none => exact Or.inl ⟨_, _, rfl⟩
        | some ls =>
          refine Or.inr (Or.inr ⟨_, _, rfl, ?_, ?_⟩)
          · exact update_status_status now p1 ScheduleStatus.published
              (some lp.id) (some ls) _ _ none
          · exact (update_status_frame now p1 ScheduleStatus.published
              (some lp.id) (some ls) _ _ none).1
      | error e => exact Or.inr (Or.inl ⟨_, e, rfl⟩)

/-- Claim C1 (corrected): terminal immutability holds for `PUBLISHED` —
reschedule, cancel, and publish-now on a `PUBLISHED` post are all rejected
with a conflict `ValueError` and the session is untouched.  For `CANCELLED`
it holds only partially: reschedule is rejected and cancel leaves the
status `CANCELLED`, but publish-now checks only for `PUBLISHED`, so on a
`CANCELLED` post it proceeds and the stored status becomes `PUBLISHING`
and then `PUBLISHED` or `FAILED` — the claim's "publish-now on a CANCELLED
post does not change its status" is false (see the counterexample). -/
theorem terminal_immutability_amended (env : Env) (now t : Int)
    (tz : Option String) (upd del : Except String Unit)
    (pub : Except String LatePost) (s : SessionState) (pid : Nat)
    (p : ScheduledPost) (hget : s.get pid = some p) :
    (p.status = ScheduleStatus.published →
      SchedulerService.reschedule now upd s pid t tz
        = (s, SyncTrace.empty, Except.error (SchedError.valueError
            ("Cannot reschedule post with status " ++ p.status.value))) ∧
      SchedulerService.cancel del s pid
        = (s, SyncTrace.empty, Except.error (SchedError.valueError
            "Cannot cancel already published post")) ∧
      SchedulerService.publish_now env now pub s pid
        = (s, SyncTrace.empty, Except.error (SchedError.valueError
            "Post already published"))) ∧
    (p.status = ScheduleStatus.cancelled →
      SchedulerService.reschedule now upd s pid t tz
        = (s, SyncTrace.empty, Except.error (SchedError.valueError
            ("Cannot reschedule post with status " ++ p.status.value))) ∧
      (∃ q, (SchedulerService.cancel del s pid).1.get pid = some q ∧
        q.status = ScheduleStatus.cancelled) ∧
      (∃ q, (SchedulerService.publish_now env now pub s pid).1.get pid
          = some q ∧
        (q.status = ScheduleStatus.publishing ∨
         q.status = ScheduleStatus.published ∨
         q.status = ScheduleStatus.failed))) := by
  constructor
  · intro hpub
    refine ⟨?_, ?_, ?_⟩
    · unfold SchedulerService.reschedule
      rw [hget]
      dsimp only
      rw [if_pos (Or.inl hpub)]
    · unfold SchedulerService.cancel
      rw [hget]
      dsimp only
      rw [if_pos hpub]
    · unfold SchedulerService.publish_now
      rw [hget]
      dsimp only
      rw [if_pos hpub]
  · intro hcan
    have hnp : ¬ p.status = ScheduleStatus.published := by
      rw [hcan]; decide
    refine ⟨?_, ?_, ?_⟩
    · unfold SchedulerService.reschedule
      rw [hget]
      dsimp only
      rw [if_pos (Or.inr hcan)]
    · unfold SchedulerService.cancel
      rw [hget]
      dsimp only
      rw [if_neg hnp]
      by_cases hlt : truthy p.late_post_id = true
      · unfold SchedulerService.delete_from_late
        rw [if_pos hlt, if_pos hlt]
        cases del with
        | ok u =>
          dsimp only
          exact ⟨ScheduledPostRepository.cancel p,
            get_put_commit_eq s pid p _ hget rfl, rfl⟩
        | error e =>
          dsimp only
          exact ⟨p, hget, hcan⟩
      · rw [if_neg hlt]
        dsimp only
        exact ⟨ScheduledPostRepository.cancel p,
          get_put_commit_eq s pid p _ hget rfl, rfl⟩
    · unfold SchedulerService.publish_now
      rw [hget]
      dsimp only
      rw [if_neg hnp]
      have hp1id : (ScheduledPostRepository.update_status now p
          ScheduleStatus.publishing none none none none none).id = p.id :=
        (update_status_frame now p ScheduleStatus.publishing
          none none none none none).1
      have hget1 : ((s.put (ScheduledPostRepository.update_status now p
          ScheduleStatus.publishing none none none none none)).commit).get
          pid = some (ScheduledPostRepository.update_status now p
          ScheduleStatus.publishing none none none none none) :=
        get_put_commit_eq s pid p _ hget hp1id
      rcases publish_via_late_cases env now pub
          ((s.put (ScheduledPostRepository.update_status now p
            ScheduleStatus.publishing none none none none none)).commit)
          (ScheduledPostRepository.update_status now p
            ScheduleStatus.publishing none none none none none)
        with ⟨tr2, e, heq⟩ | ⟨tr2, e, heq⟩ | ⟨tr2, q, heq, hqst, hqid⟩
      · rw [heq]
        dsimp only
        exact ⟨_, hget1, Or.inl (update_status_status now p
          ScheduleStatus.publishing none none none none none)⟩
      · rw [heq]
        dsimp only
        refine ⟨ScheduledPostRepository.update_status now
            (ScheduledPostRepository.update_status now p
              ScheduleStatus.publishing none none none none none)
            ScheduleStatus.failed none none none none (some e), ?_,
          Or.inr (Or.inr (update_status_status now
            (ScheduledPostRepository.update_status now p
              ScheduleStatus.publishing none none none none none)
            ScheduleStatus.failed none none none none (some e)))⟩
        exact get_put_commit_eq _ pid _ _ hget1
          (update_status_frame now
            (ScheduledPostRepository.update_status now p
              ScheduleStatus.publishing none none none none none)
            ScheduleStatus.failed none none none none (some e)).1
      · rw [heq]
        dsimp only
        refine ⟨q, ?_, Or.inr (Or.inl hqst)⟩
        exact get_put_commit_eq _ pid _ q hget1 hqid

/-- Witness for C1 at `cancelledPost`: the published clause is vacuous and
the cancelled clause exhibits the behaviour, publish-now succeeding
externally. -/
theorem terminal_immutability_amended_witness :
    (cancelledPost.status = ScheduleStatus.published →
      SchedulerService.reschedule 500 (Except.ok ()) cancelledSession 1 900
          none
        = (cancelledSession, SyncTrace.empty,
            Except.error (SchedError.valueError
              ("Cannot reschedule post with status "
                ++ cancelledPost.status.value))) ∧
      SchedulerService.cancel (Except.ok ()) cancelledSession 1
        = (cancelledSession, SyncTrace.empty,
            Except.error (SchedError.valueError
              "Cannot cancel already published post")) ∧
      SchedulerService.publish_now baseEnv 500 (Except.ok latePostOk)
          cancelledSession 1
        = (cancelledSession, SyncTrace.empty,
            Except.error (SchedError.valueError "Post already published"))) ∧
    (cancelledPost.status = ScheduleStatus.cancelled →
      SchedulerService.reschedule 500 (Except.ok ()) cancelledSession 1 900
          none
        = (cancelledSession, SyncTrace.empty,
            Except.error (SchedError.valueError
              ("Cannot reschedule post with status "
                ++ cancelledPost.status.value))) ∧
      (∃ q, (SchedulerService.cancel (Except.ok ()) cancelledSession
          1).1.get 1 = some q ∧
        q.status = ScheduleStatus.cancelled) ∧
      (∃ q, (SchedulerService.publish_now baseEnv 500 (Except.ok latePostOk)
          cancelledSession 1).1.get 1 = some q ∧
        (q.status = ScheduleStatus.publishing ∨
         q.status = ScheduleStatus.published ∨
         q.status = ScheduleStatus.failed))) :=
  terminal_immutability_amended baseEnv 500 900 none (Except.ok ())
    (Except.ok ()) (Except.ok latePostOk) cancelledSession 1 cancelledPost
    (by decide)

end AngelaMos
